import Mathlib

/-
Verification of the web-crawler core (crawl orchestration and relevance
pipeline) against its specification.  The Python sources are shallowly
embedded: pure helpers become Lean functions, the mutable crawler state
becomes an explicit state record threaded through the functions, network,
store and classifier collaborators become oracle functions supplied as an
environment, and Python exceptions become Except values.
-/

deriving instance DecidableEq for Except

namespace WebCrawler

/- ------------------------------------------------------------------ -/
/- Embedding of urllib.parse (urlsplit / urlparse / urlunsplit /
   urlunparse) as consumed by utils.normalize_url and crawler.crawl_page.
   ASCII case mapping models str.lower on the ASCII inputs the crawler
   handles.  The two stdlib checks that depend on external libraries
   (ipaddress validation of bracketed hosts, NFKC validation of
   non-ASCII netlocs) are supplied as an oracle record PyUrlLib; on
   bracket-free ASCII URLs neither oracle is ever consulted. -/

def scheme_chars : List Char :=
  "abcdefghijklmnopqrstuvwxyzABCDEFGHIJKLMNOPQRSTUVWXYZ0123456789+-.".toList

def isAsciiAlphaChar (c : Char) : Bool :=
  ('a' ≤ c ∧ c ≤ 'z') ∨ ('A' ≤ c ∧ c ≤ 'Z')

/-- Oracle for the parts of urllib.parse delegated to external libraries:
validation of bracketed (IPv6/IPvFuture) hosts and the NFKC check on
non-ASCII netlocs. -/
structure PyUrlLib where
  bracketedHostOk : String → Bool
  nonAsciiNetlocOk : String → Bool

/-- Result of urlsplit: scheme, netloc, path, query, fragment. -/
structure SplitResult where
  scheme : String
  netloc : String
  path : String
  query : String
  fragment : String
deriving DecidableEq, Repr

/-- Result of urlparse: urlsplit plus the params component split from the
path. -/
structure ParseResult where
  scheme : String
  netloc : String
  path : String
  params : String
  query : String
  fragment : String
deriving DecidableEq, Repr

/-- Leading strip of WHATWG C0-control-or-space characters (codepoints
up to 0x20), as urlsplit performs on its input. -/
def lstripControl (cs : List Char) : List Char :=
  cs.dropWhile (fun c => c.toNat ≤ 32)

/-- Removal of the unsafe URL bytes tab, CR and LF, as urlsplit performs
on its input. -/
def removeUnsafeBytes (cs : List Char) : List Char :=
  cs.filter (fun c => ¬ (c = '\t' ∨ c = '\r' ∨ c = '\n'))

def isNetlocDelim (c : Char) : Bool :=
  c = '/' ∨ c = '?' ∨ c = '#'

/-- Scheme extraction step of urlsplit: if the text before the first
colon is nonempty, starts with an ASCII letter and consists of scheme
characters only, it is the (lower-cased) scheme. -/
def schemeSplit (cs : List Char) : List Char × List Char :=
  match cs.span (fun c => c ≠ ':') with
  | (before, ':' :: after) =>
      if before ≠ [] ∧ isAsciiAlphaChar (before.headD ' ')
          ∧ before.all (fun c => c ∈ scheme_chars) then
        (before.map Char.toLower, after)
      else ([], cs)
  | _ => ([], cs)

/-- The bracketed host inside a netloc: the text after the first opening
bracket and before the following closing bracket. -/
def bracketedHostOf (netloc : List Char) : List Char :=
  (((netloc.dropWhile (fun c => c ≠ '[')).drop 1).takeWhile (fun c => c ≠ ']'))

/-- Embedding of urllib.parse.urlsplit. -/
def pyUrlsplit (lib : PyUrlLib) (url : String) : Except String SplitResult :=
  let cs := removeUnsafeBytes (lstripControl url.toList)
  let sp := schemeSplit cs
  let scheme := sp.1
  let rest := sp.2
  match rest with
  | '/' :: '/' :: tail =>
      let netloc := tail.takeWhile (fun c => ¬ isNetlocDelim c)
      let rest2 := tail.dropWhile (fun c => ¬ isNetlocDelim c)
      if ('[' ∈ netloc ∧ ']' ∉ netloc) ∨ (']' ∈ netloc ∧ '[' ∉ netloc) then
        .error "Invalid IPv6 URL"
      else if '[' ∈ netloc ∧ ']' ∈ netloc
           ∧ ¬ lib.bracketedHostOk (bracketedHostOf netloc).asString then
        .error "invalid bracketed host"
      else
        let path := rest2.takeWhile (fun c => c ≠ '#')
        let fragment := (rest2.dropWhile (fun c => c ≠ '#')).drop 1
        let query := (path.dropWhile (fun c => c ≠ '?')).drop 1
        let path := path.takeWhile (fun c => c ≠ '?')
        if netloc = [] ∨ netloc.all (fun c => c.toNat ≤ 127)
           ∨ lib.nonAsciiNetlocOk netloc.asString then
          .ok ⟨scheme.asString, netloc.asString, path.asString,
               query.asString, fragment.asString⟩
        else .error "netloc contains invalid characters"
  | _ =>
      let path := rest.takeWhile (fun c => c ≠ '#')
      let fragment := (rest.dropWhile (fun c => c ≠ '#')).drop 1
      let query := (path.dropWhile (fun c => c ≠ '?')).drop 1
      let path := path.takeWhile (fun c => c ≠ '?')
      .ok ⟨scheme.asString, "", path.asString, query.asString, fragment.asString⟩

/-- The schemes for which urlparse splits params from the path. -/
def uses_params : List String :=
  ["", "ftp", "hdl", "prospero", "http", "imap", "https", "shttp", "rtsp",
   "rtsps", "rtspu", "sip", "sips", "mms", "sftp", "tel"]

/-- Embedding of urllib.parse._splitparams: split the params component
off the path (a semicolon in the last path segment). -/
def pySplitparams (cs : List Char) : List Char × List Char :=
  if '/' ∈ cs then
    let rev := cs.reverse
    let post := (rev.takeWhile (fun c => c ≠ '/')).reverse
    let pre := (rev.dropWhile (fun c => c ≠ '/')).reverse
    if ';' ∈ post then
      (pre ++ post.takeWhile (fun c => c ≠ ';'),
       (post.dropWhile (fun c => c ≠ ';')).drop 1)
    else (cs, [])
  else if ';' ∈ cs then
    (cs.takeWhile (fun c => c ≠ ';'), (cs.dropWhile (fun c => c ≠ ';')).drop 1)
  else (cs, [])

/-- Embedding of urllib.parse.urlparse. -/
def pyUrlparse (lib : PyUrlLib) (url : String) : Except String ParseResult := do
  let sp ← pyUrlsplit lib url
  if sp.scheme ∈ uses_params ∧ ';' ∈ sp.path.toList then
    let pr := pySplitparams sp.path.toList
    pure ⟨sp.scheme, sp.netloc, pr.1.asString, pr.2.asString, sp.query, sp.fragment⟩
  else
    pure ⟨sp.scheme, sp.netloc, sp.path, "", sp.query, sp.fragment⟩

/-- Embedding of urllib.parse.urlunsplit. -/
def pyUrlunsplit (scheme netloc url query fragment : String) : String :=
  let url := if netloc ≠ "" ∨ (url ≠ "" ∧ url.toList.take 2 = ['/', '/']) then
               (let url := if url ≠ "" ∧ url.toList.take 1 ≠ ['/'] then "/" ++ url else url
                "//" ++ netloc ++ url)
             else url
  let url := if scheme ≠ "" then scheme ++ ":" ++ url else url
  let url := if query ≠ "" then url ++ "?" ++ query else url
  if fragment ≠ "" then url ++ "#" ++ fragment else url

/-- Embedding of urllib.parse.urlunparse. -/
def pyUrlunparse (scheme netloc path params query fragment : String) : String :=
  pyUrlunsplit scheme netloc
    (if params ≠ "" then path ++ ";" ++ params else path) query fragment

/-- ASCII lower-casing, modelling str.lower on the ASCII data the crawler
handles. -/
def pyLower (s : String) : String := (s.toList.map Char.toLower).asString

/-- Embedding of utils.normalize_url: parse, fail (None) when scheme or
netloc is missing or the parse raises, otherwise lower-case scheme and
netloc, prefix the netloc with www. unless already present and
reassemble all six components with urlunparse. -/
def normalize_url (lib : PyUrlLib) (url : String) : Option String :=
  match pyUrlparse lib url with
  | .error _ => none
  | .ok p =>
      if p.scheme = "" ∨ p.netloc = "" then none
      else
        let n := pyLower p.netloc
        let n := if List.isPrefixOf "www.".toList n.toList then n else "www." ++ n
        some (pyUrlunparse (pyLower p.scheme) n p.path p.params p.query p.fragment)

/-- Trivial oracle instance: every bracketed host and non-ASCII netloc
accepted.  On bracket-free ASCII URLs the oracle is never consulted, so
any instance gives the stdlib behaviour there. -/
def pyLibTriv : PyUrlLib := ⟨fun _ => true, fun _ => true⟩

/- ------------------------------------------------------------------ -/
/- Embedding of utils.exponential_backoff.  The wrapped operation is an
   oracle mapping the attempt index to its outcome; the embedding
   returns the wrapper's result (ok value, ok none for the unreachable
   loop fall-through, or the re-raised error) together with the list of
   sleep durations performed, in order. -/

def backoffFrom (outcomes : Nat → Except ε α) (base_delay : ℚ)
    (max_retries attempt : Nat) : Except ε (Option α) × List ℚ :=
  if _h : attempt < max_retries then
    match outcomes attempt with
    | .ok a => (.ok (some a), [])
    | .error e =>
        if attempt = max_retries - 1 then (.error e, [])
        else
          let r := backoffFrom outcomes base_delay max_retries (attempt + 1)
          (r.1, base_delay * 2 ^ attempt :: r.2)
  else (.ok none, [])
termination_by max_retries - attempt

/-- utils.exponential_backoff: run the decorated operation from attempt
0 with the given retry budget and base delay. -/
def exponential_backoff (outcomes : Nat → Except ε α) (base_delay : ℚ)
    (max_retries : Nat) : Except ε (Option α) × List ℚ :=
  backoffFrom outcomes base_delay max_retries 0

/- ------------------------------------------------------------------ -/
/- Embedding of rate_limiter.RateLimiter.  Time is rational; wait takes
   the current time and returns the updated state and the sleep duration
   performed (0 when a token was available). -/

structure RateLimiterState where
  tokens : ℚ
  last_check : ℚ
deriving DecidableEq, Repr

/-- RateLimiter.wait: refill tokens from elapsed time capped at the
burst maximum, then either consume one token (no sleep) or sleep for
interval * (1 - tokens) and zero the bucket.  In both branches the code
records last_check := now, the time at which the call STARTED. -/
def RateLimiter.wait (interval max_tokens : ℚ) (s : RateLimiterState)
    (now : ℚ) : RateLimiterState × ℚ :=
  let tokens := min max_tokens (s.tokens + (now - s.last_check) / interval)
  if tokens < 1 then
    (⟨0, now⟩, interval * (1 - tokens))
  else
    (⟨tokens - 1, now⟩, 0)

/-- Back-to-back driver: each wait call is issued at the instant the
previous call returned (its admission time); returns the list of
admission times. -/
def RateLimiter.backToBack (interval max_tokens : ℚ) :
    RateLimiterState → ℚ → Nat → List ℚ
  | _, _, 0 => []
  | s, t, n + 1 =>
      let r := RateLimiter.wait interval max_tokens s t
      (t + r.2) :: RateLimiter.backToBack interval max_tokens r.1 (t + r.2) n

/- ------------------------------------------------------------------ -/
/- Embedding of config.py (the values the orchestration logic reads). -/

def MAX_DEPTH : Nat := 2
def MAX_TOTAL_PAGES : Nat := 10
def MAX_LINKS_PER_PAGE : Nat := 300
def BATCH_SIZE : Nat := 20
def TEST_MAX_LINKS_PER_PAGE : Nat := 200
def TEST_MAX_TOTAL_PAGES : Nat := 1
def TEST_MAX_DEPTH : Nat := 1

/- ------------------------------------------------------------------ -/
/- Link records.  extract_links yields dicts with url, link_text and
   context; _format_links_for_analysis reproduces exactly those three
   fields. -/

structure RawLink where
  url : String
  link_text : String
  context : String
deriving DecidableEq, Repr

/-- A Python keywords value as the classifier may return it: a string, a
list, or anything else. -/
inductive PyKeywords where
  | pstr (s : String)
  | plist (l : List String)
  | other
deriving DecidableEq, Repr

/-- A classifier output record (one JSON object): url and relevancy are
read with mandatory indexing, the remaining fields with .get defaults. -/
structure AnalyzedLink where
  url : String
  relevancy : ℚ
  relevancy_explanation : Option String
  high_priority_keywords : Option PyKeywords
  medium_priority_keywords : Option PyKeywords
  context : Option String
deriving DecidableEq, Repr

/-- A row of the links table as _format_links_for_db prepares it. -/
structure DbLink where
  url : String
  relevancy : ℚ
  relevancy_explanation : String
  high_priority_keywords : List String
  medium_priority_keywords : List String
  context : String
deriving DecidableEq, Repr

/- ------------------------------------------------------------------ -/
/- Embedding of open_ai_analyzer.py.  The OpenAI call together with the
   JSON extraction of its response text is an oracle from the keyword
   lists and the batch to either a raised error or the parsed list. -/

/-- open_ai_analyzer._prepare_links: truncate in test mode. -/
def _prepare_links (links : List RawLink) (test_mode : Bool) : List RawLink :=
  if test_mode then links.take TEST_MAX_LINKS_PER_PAGE else links

/-- open_ai_analyzer.filter_links: keep records whose relevancy meets
the threshold. -/
def filter_links (links : List AnalyzedLink) (threshold : ℚ) : List AnalyzedLink :=
  links.filter (fun l => threshold ≤ l.relevancy)

/-- The classifier-call oracle: keyword lists and batch to raised error
or parsed JSON list. -/
def ClassifierOracle : Type :=
  List String → List String → List RawLink → Except Unit (List AnalyzedLink)

/-- open_ai_analyzer._analyze_batch: call the API; any raised error is
caught and yields []; otherwise filter the parsed records at the 0.3
relevancy threshold. -/
def _analyze_batch (respond : ClassifierOracle) (hk mk : List String)
    (links : List RawLink) : List AnalyzedLink :=
  match respond hk mk links with
  | .error _ => []
  | .ok result => filter_links result (3 / 10)

/-- Batching loop of analyze_page_content: links[i : i + bs] for i in
range(0, len(links), bs). -/
def pyChunks (bs : Nat) (l : List α) : List (List α) :=
  match l with
  | [] => []
  | x :: xs =>
      if _h : bs = 0 then []
      else (x :: xs).take bs :: pyChunks bs ((x :: xs).drop bs)
termination_by l.length
decreasing_by
  have hb : 0 < bs := Nat.pos_of_ne_zero _h
  simpa using Nat.sub_lt (Nat.succ_pos xs.length) hb

/-- open_ai_analyzer.analyze_page_content: prepare (test-mode truncate),
process in BATCH_SIZE batches, concatenate per-batch results. -/
def analyze_page_content (respond : ClassifierOracle) (hk mk : List String)
    (links : List RawLink) (test_mode : Bool) : List AnalyzedLink :=
  let links := _prepare_links links test_mode
  ((pyChunks BATCH_SIZE links).map (fun b => _analyze_batch respond hk mk b)).flatten

/- ------------------------------------------------------------------ -/
/- Embedding of crawler.py.  The Crawler instance attributes consulted
   by crawl_page form the configuration; the mutable instance state
   (visited set) plus observation logs of the calls made to the
   collaborators (fetches, page/link stores, analyzer invocations,
   crawl_page entries) form the state record threaded through the
   functions.  Collaborators are oracles in an environment record. -/

/-- crawler._format_links_for_analysis: rebuild each link dict with
exactly the url, link_text and context fields. -/
def _format_links_for_analysis (links : List RawLink) : List RawLink :=
  links.map (fun l => ⟨l.url, l.link_text, l.context⟩)

/-- str.split on a single separator character: Python s.split(",") on
the comma-separated keyword strings. -/
def splitOnChar (c : Char) : List Char → List (List Char)
  | [] => [[]]
  | x :: xs =>
      match splitOnChar c xs with
      | [] => [[x]]
      | h :: t => if x = c then [] :: h :: t else (x :: h) :: t

/-- str.strip: drop ASCII whitespace from both ends. -/
def pyStrip (s : String) : String :=
  ((s.toList.dropWhile Char.isWhitespace).reverse.dropWhile
    Char.isWhitespace).reverse.asString

/-- crawler._format_links_for_db._clean_keywords: a comma-separated
string is split and stripped; a list is filtered of falsy entries and
stripped; anything else becomes []. -/
def _clean_keywords : PyKeywords → List String
  | .pstr s => (splitOnChar ',' s.toList).map (fun w => pyStrip w.asString)
  | .plist l => (l.filter (fun kw => kw ≠ "")).map pyStrip
  | .other => []

/-- crawler._format_links_for_db: prepare analyzed links for insertion;
note the context field is read from the ANALYZED (classifier-returned)
record, defaulting to the empty string. -/
def _format_links_for_db (analyzed_links : List AnalyzedLink) : List DbLink :=
  analyzed_links.map (fun link =>
    { url := link.url
      relevancy := link.relevancy
      relevancy_explanation := link.relevancy_explanation.getD ""
      high_priority_keywords := _clean_keywords (link.high_priority_keywords.getD (.plist []))
      medium_priority_keywords := _clean_keywords (link.medium_priority_keywords.getD (.plist []))
      context := link.context.getD "" })

/-- crawler._limit_links_for_test_mode: truncate only when the extracted
count exceeds the limit. -/
def _limit_links_for_test_mode (max_links : Nat) (raw_links : List RawLink) :
    List RawLink :=
  if max_links < raw_links.length then raw_links.take max_links else raw_links

/-- Outcome of the decorated self._fetch_page(url) call as crawl_page
sees it: an exception raised after the retries, a None return (non-HTML
content), or a response whose HTML either fails or succeeds to parse,
yielding the extract_links records. -/
inductive FetchOutcome where
  | raised
  | nonHtml
  | page (parse_ok : Bool) (links : List RawLink)

/-- Outcome of db.store_page(url): a raised storage exception, a falsy
(None) id, or a page id. -/
inductive StorePageOutcome where
  | raised
  | noId
  | pageId (id : Nat)

/-- The collaborator oracles crawl_page interacts with, plus the
urllib.parse oracle used by the URL-format validation.  The persisted
dedup query db.get_existing_urls can raise (error) or answer with the
set of already-stored URLs: the Database class defines no such method,
so with the shipped store the call raises whenever reached, and
crawl_page does not wrap it. -/
structure Env where
  lib : PyUrlLib
  fetch : String → FetchOutcome
  store_page : String → StorePageOutcome
  get_existing_urls : List String → Except Unit (List String)
  store_links_ok : Nat → List DbLink → Bool
  respond : ClassifierOracle

/-- Crawler instance attributes read by crawl_page. -/
structure Cfg where
  max_depth : Nat
  max_pages : Nat
  max_links : Nat
  test_mode : Bool
deriving DecidableEq, Repr

/-- The mutable crawler state plus observation logs: visited_urls, the
URLs for which a network fetch was initiated, the crawl_page entries
(url and depth at invocation), the pages registered, the link batches
written to the store and the candidate lists handed to the analyzer. -/
structure St where
  visited : List String
  fetched : List String
  calls : List (String × Nat)
  stored_pages : List (String × Nat)
  stored_links : List (Nat × List DbLink)
  analyze_calls : List (List RawLink)
deriving DecidableEq, Repr

def St.empty : St := ⟨[], [], [], [], [], []⟩

/-- Observation: record a crawl_page entry. -/
def St.logCall (st : St) (url : String) (d : Nat) : St :=
  { st with calls := st.calls ++ [(url, d)] }

/-- Observation: record that a network fetch was initiated for url. -/
def St.logFetch (st : St) (url : String) : St :=
  { st with fetched := st.fetched ++ [url] }

/-- self.visited_urls.add(url) together with the record of the page
registration that immediately precedes it. -/
def St.markVisited (st : St) (url : String) (page_id : Nat) : St :=
  { st with
    visited := st.visited ++ [url]
    stored_pages := st.stored_pages ++ [(url, page_id)] }

/-- Observation: record the candidate batch handed to the analyzer. -/
def St.logAnalyze (st : St) (links : List RawLink) : St :=
  { st with analyze_calls := st.analyze_calls ++ [links] }

/-- Observation: record the rows written by db.store_links. -/
def St.logStoredLinks (st : St) (page_id : Nat) (links : List DbLink) : St :=
  { st with stored_links := st.stored_links ++ [(page_id, links)] }

/-- crawler._filter_new_links: query the store for already-known target
URLs and keep the links not among them; an exception raised by the query
propagates (the call is not wrapped). -/
def _filter_new_links (env : Env) (raw_links : List RawLink) :
    Except Unit (List RawLink) := do
  let urls_to_check := raw_links.map (fun l => l.url)
  let existing_urls ← env.get_existing_urls urls_to_check
  pure (raw_links.filter (fun l => l.url ∉ existing_urls))

/-- The value crawl_page returns on full success: url, number of links
and the analyzed links themselves. -/
structure CrawlReturn where
  url : String
  num_links : Nat
  links : List AnalyzedLink
deriving DecidableEq, Repr

mutual

/-- crawler.crawl_page.  Returns the Python return value (ok none for
the None / bare-return paths, error for an exception that escapes the
call) together with the state after the call. -/
def crawl_page (env : Env) (cfg : Cfg) (hk mk : List String) (st : St)
    (url : String) (current_depth : Nat) :
    Except Unit (Option CrawlReturn) × St :=
  let st0 := st.logCall url current_depth
  if _hd : cfg.max_depth < current_depth then (.ok none, st0)
  else if url ∈ st0.visited then (.ok none, st0)
  else
    match pyUrlparse env.lib url with
    | .error _ => (.error (), st0)
    | .ok result =>
        if ¬ (result.scheme ≠ "" ∧ result.netloc ≠ "") then (.ok none, st0)
        else
          let st1 := st0.logFetch url
          match env.fetch url with
          | .raised => (.ok none, st1)
          | .nonHtml => (.ok none, st1)
          | .page parse_ok links =>
              match env.store_page url with
              | .raised => (.error (), st1)
              | .noId => (.ok none, st1)
              | .pageId page_id =>
                  let st2 := st1.markVisited url page_id
                  if ¬ parse_ok then (.ok none, st2)
                  else
                    let raw_links := links
                    let raw_links := if cfg.test_mode then
                        _limit_links_for_test_mode cfg.max_links raw_links
                      else raw_links
                    match _filter_new_links env raw_links with
                    | .error _ => (.error (), st2)
                    | .ok new_links =>
                    if new_links = [] then (.ok (some ⟨url, 0, []⟩), st2)
                    else
                      let limited_new_links := new_links.take cfg.max_links
                      let links_with_context :=
                        _format_links_for_analysis limited_new_links
                      let st3 := st2.logAnalyze links_with_context
                      let analyzed_links := analyze_page_content env.respond hk mk
                        links_with_context cfg.test_mode
                      if analyzed_links = [] then (.ok none, st3)
                      else
                        let formatted_links := _format_links_for_db analyzed_links
                        if ¬ env.store_links_ok page_id formatted_links then
                          (.ok none, st3)
                        else
                          let st4 := st3.logStoredLinks page_id formatted_links
                          if _hr : current_depth < cfg.max_depth then
                            match _crawl_child_links env cfg hk mk st4 analyzed_links
                                (current_depth + 1) with
                            | (.error e, st5) => (.error e, st5)
                            | (.ok _, st5) =>
                                (.ok (some ⟨url, analyzed_links.length, analyzed_links⟩), st5)
                          else
                            (.ok (some ⟨url, analyzed_links.length, analyzed_links⟩), st4)
termination_by ((cfg.max_depth + 2 - current_depth, 0) : Nat ×ₗ Nat)
decreasing_by
  all_goals exact (Prod.Lex.lt_iff _ _).mpr (by dsimp only [List.length_cons]; omega)

/-- crawler._crawl_child_links: for each analyzed link whose url is a
truthy string, recursively crawl it at current_depth + 1; an exception
from a child propagates. -/
def _crawl_child_links (env : Env) (cfg : Cfg) (hk mk : List String) (st : St)
    (analyzed_links : List AnalyzedLink) (current_depth : Nat) :
    Except Unit Unit × St :=
  match analyzed_links with
  | [] => (.ok (), st)
  | link :: rest =>
      if link.url = "" then
        _crawl_child_links env cfg hk mk st rest current_depth
      else
        match crawl_page env cfg hk mk st link.url (current_depth + 1) with
        | (.error e, st) => (.error e, st)
        | (.ok _, st) => _crawl_child_links env cfg hk mk st rest current_depth
termination_by ((cfg.max_depth + 2 - current_depth, analyzed_links.length + 1) : Nat ×ₗ Nat)
decreasing_by
  all_goals exact (Prod.Lex.lt_iff _ _).mpr (by dsimp only [List.length_cons]; omega)

end

/-- crawler.crawl: iterate crawl_page over the seed URLs at depth 0; an
exception from crawl_page aborts the loop (propagates). -/
def crawl_urls (env : Env) (cfg : Cfg) (hk mk : List String) :
    St → List String → Except Unit Unit × St
  | st, [] => (.ok (), st)
  | st, url :: rest =>
      match crawl_page env cfg hk mk st url 0 with
      | (.error e, st) => (.error e, st)
      | (.ok _, st) => crawl_urls env cfg hk mk st rest

/-- crawler._set_mode_configuration: the limits the Crawler installs for
each mode. -/
def _set_mode_configuration (test_mode : Bool) : Cfg :=
  if test_mode then
    ⟨TEST_MAX_DEPTH, TEST_MAX_TOTAL_PAGES, TEST_MAX_LINKS_PER_PAGE, true⟩
  else
    ⟨MAX_DEPTH, MAX_TOTAL_PAGES, MAX_LINKS_PER_PAGE, false⟩

/-- The collaborator contract on the classifier: positionally aligned
output, at most one record per input link of a batch. -/
def RespondBounded (respond : ClassifierOracle) : Prop :=
  ∀ hk mk b r, respond hk mk b = .ok r → r.length ≤ b.length

/- ------------------------------------------------------------------ -/
/- Concrete scenario data used to evaluate the embedding at specific
   inputs. -/

/-- A page with one extracted candidate link whose extraction-time
context is ORIGINAL; the classifier echoes the link but with its context
field changed to ALTERED. -/
def envCtx : Env :=
  { lib := pyLibTriv
    fetch := fun _ => .page true [⟨"http://www.x.com/a", "t", "ORIGINAL"⟩]
    store_page := fun _ => .pageId 1
    get_existing_urls := fun _ => .ok []
    store_links_ok := fun _ _ => true
    respond := fun _ _ _ =>
      .ok [⟨"http://www.x.com/a", 1, some "expl", none, none, some "ALTERED"⟩] }

/-- Production-shaped configuration with max_depth 0. -/
def cfgD0 : Cfg := ⟨0, 10, 300, false⟩

/-- Production-shaped configuration with max_depth 2. -/
def cfgDepth2 : Cfg := ⟨2, 10, 300, false⟩

/-- Production-shaped configuration with a page budget of one. -/
def cfgPages1 : Cfg := ⟨2, 1, 300, false⟩

/-- Every fetch succeeds, parses and yields no links. -/
def envNoLinks : Env :=
  { lib := pyLibTriv
    fetch := fun _ => .page true []
    store_page := fun _ => .pageId 1
    get_existing_urls := fun _ => .ok []
    store_links_ok := fun _ _ => true
    respond := fun _ _ _ => .ok [] }

/-- A frontier that has already visited one page. -/
def stVisitedA : St := { St.empty with visited := ["https://www.a.com/"] }

/-- The start page yields one child link; every other page is non-HTML.
The classifier scores the child link 1. -/
def envChild : Env :=
  { envCtx with
    fetch := fun u =>
      if u = "http://www.x.com/start" then
        .page true [⟨"http://www.x.com/a", "t", "ctx"⟩]
      else .nonHtml }

/-- Page registration raises a storage exception. -/
def envStoreRaise : Env := { envCtx with store_page := fun _ => .raised }

/-- Every fetch raises (exhausted retries). -/
def envFetchRaise : Env := { envCtx with fetch := fun _ => .raised }

/-- The persisted-dedup store query raises, as the shipped Database
(which defines no get_existing_urls) does whenever the query is
reached. -/
def envDedupRaise : Env := { envCtx with get_existing_urls := fun _ => .error () }

/-- A sample candidate link and a 21-element candidate list (one more
than BATCH_SIZE). -/
def sampleLink : RawLink := ⟨"u", "t", "c"⟩

def sample21 : List RawLink := List.replicate 21 sampleLink

/-- A classifier echoing each input link with relevancy 1 and its
context unchanged (one output record per input record). -/
def envEcho : Env :=
  { envCtx with
    respond := fun _ _ b =>
      .ok (b.map (fun l => ⟨l.url, 1, none, none, none, some l.context⟩)) }

/-- Retry outcomes: every attempt raises. -/
def attemptsAllFail : Nat → Except Unit Nat := fun _ => .error ()

/-- Retry outcomes: the first attempt raises, later attempts return 7. -/
def attemptsSecondOk : Nat → Except Unit Nat :=
  fun j => if j = 0 then .error () else .ok 7

/-- Retry outcomes: the first two attempts raise, the third returns 9. -/
def attemptsThirdOk : Nat → Except Unit Nat :=
  fun j => if j ≤ 1 then .error () else .ok 9

/-- Retry outcomes: every attempt returns 5. -/
def attemptsAllOk : Nat → Except Unit Nat := fun _ => .ok 5

/-- RateLimiter.__init__: the token interval derived from the configured
calls-per-minute rate. -/
def RateLimiter.mkInterval (calls_per_minute : ℚ) : ℚ := 60 / calls_per_minute

/-- How one crawl-run state extends another: the analyzer inputs and the
stored link batches only grow, every analyzer input is the formatted
max_links-prefix of some candidate list, and every stored batch is the
db-formatted analyzer output for such an input. -/
def PipelineShape (env : Env) (cfg : Cfg) (hk mk : List String) (st st2 : St) : Prop :=
  ∃ δa δs,
    st2.analyze_calls = st.analyze_calls ++ δa ∧
    st2.stored_links = st.stored_links ++ δs ∧
    (∀ L ∈ δa, ∃ s, L = _format_links_for_analysis (List.take cfg.max_links s)) ∧
    (∀ e ∈ δs, ∃ s, e.2 = _format_links_for_db (analyze_page_content env.respond hk mk
        (_format_links_for_analysis (List.take cfg.max_links s)) cfg.test_mode))

/- ------------------------------------------------------------------ -/
/- General lemmas about the batching loop. -/

lemma pyChunks_nil (bs : Nat) : pyChunks bs ([] : List α) = [] := by
  simp [pyChunks]

lemma pyChunks_cons (bs : Nat) (hbs : bs ≠ 0) (x : α) (xs : List α) :
    pyChunks bs (x :: xs) = (x :: xs).take bs :: pyChunks bs ((x :: xs).drop bs) := by
  rw [pyChunks]
  simp [hbs]

lemma pyChunks_flatten_le (bs : Nat) (hbs : 0 < bs) :
    ∀ (n : Nat) (l : List α), l.length ≤ n → (pyChunks bs l).flatten = l := by
  intro n
  induction n with
  | zero =>
      intro l hl
      have hnil : l = [] := List.length_eq_zero.mp (Nat.le_zero.mp hl)
      simp [hnil, pyChunks_nil]
  | succ n ih =>
      intro l hl
      match l with
      | [] => simp [pyChunks_nil]
      | x :: xs =>
          rw [pyChunks_cons bs (Nat.pos_iff_ne_zero.mp hbs)]
          rw [List.flatten_cons]
          rw [ih ((x :: xs).drop bs)
            (by simp only [List.length_drop, List.length_cons] at hl ⊢; omega)]
          exact List.take_append_drop bs (x :: xs)

lemma pyChunks_flatten (bs : Nat) (hbs : 0 < bs) (l : List α) :
    (pyChunks bs l).flatten = l :=
  pyChunks_flatten_le bs hbs l.length l le_rfl

lemma pyChunks_mem_le (bs : Nat) (hbs : 0 < bs) :
    ∀ (n : Nat) (l : List α), l.length ≤ n →
      ∀ b ∈ pyChunks bs l, b ≠ [] ∧ b.length ≤ bs := by
  intro n
  induction n with
  | zero =>
      intro l hl
      have hnil : l = [] := List.length_eq_zero.mp (Nat.le_zero.mp hl)
      simp [hnil, pyChunks_nil]
  | succ n ih =>
      intro l hl b hb
      match l with
      | [] => simp [pyChunks_nil] at hb
      | x :: xs =>
          rw [pyChunks_cons bs (Nat.pos_iff_ne_zero.mp hbs)] at hb
          rcases List.mem_cons.mp hb with hb | hb
          · subst hb
            constructor
            · simp [List.take_eq_nil_iff]
              omega
            · exact List.length_take_le bs (x :: xs)
          · exact ih ((x :: xs).drop bs)
              (by simp only [List.length_drop, List.length_cons] at hl ⊢; omega) b hb

lemma pyChunks_mem (bs : Nat) (hbs : 0 < bs) (l : List α) :
    ∀ b ∈ pyChunks bs l, b ≠ [] ∧ b.length ≤ bs :=
  pyChunks_mem_le bs hbs l.length l le_rfl

lemma pyChunks_full_le (bs : Nat) (hbs : 0 < bs) :
    ∀ (n : Nat) (l : List α), l.length ≤ n →
      ∀ i, i + 1 < (pyChunks bs l).length →
        ((pyChunks bs l).getD i []).length = bs := by
  intro n
  induction n with
  | zero =>
      intro l hl
      have hnil : l = [] := List.length_eq_zero.mp (Nat.le_zero.mp hl)
      simp [hnil, pyChunks_nil]
  | succ n ih =>
      intro l hl i hi
      match l with
      | [] => simp [pyChunks_nil] at hi
      | x :: xs =>
          rw [pyChunks_cons bs (Nat.pos_iff_ne_zero.mp hbs)] at hi ⊢
          match i with
          | 0 =>
              simp only [List.getD_cons_zero]
              simp only [List.length_cons] at hi
              have hrest : pyChunks bs ((x :: xs).drop bs) ≠ [] := by
                intro hnil2
                rw [hnil2] at hi
                simp at hi
              have hdrop : (x :: xs).drop bs ≠ [] := by
                intro hd
                rw [hd, pyChunks_nil] at hrest
                exact hrest rfl
              have hlen : bs < (x :: xs).length := by
                by_contra hc
                push_neg at hc
                exact hdrop (List.drop_eq_nil_of_le hc)
              simp only [List.length_take, List.length_cons] at hlen ⊢
              omega
          | i + 1 =>
              simp only [List.getD_cons_succ]
              simp only [List.length_cons] at hi
              exact ih ((x :: xs).drop bs)
                (by simp only [List.length_drop, List.length_cons] at hl ⊢; omega) i (by omega)

lemma pyChunks_full (bs : Nat) (hbs : 0 < bs) (l : List α) :
    ∀ i, i + 1 < (pyChunks bs l).length → ((pyChunks bs l).getD i []).length = bs :=
  pyChunks_full_le bs hbs l.length l le_rfl

/- ------------------------------------------------------------------ -/
/- Run-wide structure of the crawl recursion. -/

lemma PipelineShape.same {env : Env} {cfg : Cfg} {hk mk : List String} {st st2 : St}
    (h1 : st2.analyze_calls = st.analyze_calls) (h2 : st2.stored_links = st.stored_links) :
    PipelineShape env cfg hk mk st st2 :=
  ⟨[], [], by simp [h1], by simp [h2], by simp, by simp⟩

lemma PipelineShape.trans {env : Env} {cfg : Cfg} {hk mk : List String} {st1 st2 st3 : St}
    (h12 : PipelineShape env cfg hk mk st1 st2) (h23 : PipelineShape env cfg hk mk st2 st3) :
    PipelineShape env cfg hk mk st1 st3 := by
  obtain ⟨a1, s1, ha1, hs1, hpa1, hps1⟩ := h12
  obtain ⟨a2, s2, ha2, hs2, hpa2, hps2⟩ := h23
  refine ⟨a1 ++ a2, s1 ++ s2, ?_, ?_, ?_, ?_⟩
  · rw [ha2, ha1, List.append_assoc]
  · rw [hs2, hs1, List.append_assoc]
  · intro L hL
    rcases List.mem_append.mp hL with h | h
    · exact hpa1 L h
    · exact hpa2 L h
  · intro e he
    rcases List.mem_append.mp he with h | h
    · exact hps1 e h
    · exact hps2 e h

set_option maxHeartbeats 1000000 in
lemma crawl_page_shape :
    ∀ (n : Nat) (env : Env) (cfg : Cfg) (hk mk : List String) (st : St) (url : String) (d : Nat),
      cfg.max_depth + 2 - d ≤ n →
      PipelineShape env cfg hk mk st ((crawl_page env cfg hk mk st url d).2) := by
  intro n
  induction n using Nat.strong_induction_on with
  | _ n IH =>
    intro env cfg hk mk st url d hn
    have hchild : ∀ (links : List AnalyzedLink) (st0 : St), d < cfg.max_depth →
        PipelineShape env cfg hk mk st0 ((_crawl_child_links env cfg hk mk st0 links (d + 1)).2) := by
      intro links
      induction links with
      | nil =>
          intro st0 _hd
          simp only [_crawl_child_links]
          exact PipelineShape.same rfl rfl
      | cons l rest ihl =>
          intro st0 hd
          simp only [_crawl_child_links]
          by_cases hurl : l.url = ""
          · rw [if_pos hurl]
            exact ihl st0 hd
          · rw [if_neg hurl]
            have hmeas : cfg.max_depth + 2 - (d + 1 + 1) ≤ n - 1 := by omega
            have hpage := IH (n - 1) (by omega) env cfg hk mk st0 l.url (d + 1 + 1) hmeas
            rcases hcp : crawl_page env cfg hk mk st0 l.url (d + 1 + 1) with ⟨res, st1⟩
            rw [hcp] at hpage
            cases res with
            | error e =>
                dsimp only
                exact hpage
            | ok v =>
                dsimp only
                exact PipelineShape.trans hpage (ihl st1 hd)
    rw [crawl_page.eq_def]
    dsimp only
    by_cases h1 : cfg.max_depth < d
    · rw [dif_pos h1]
      exact PipelineShape.same (by simp [St.logCall]) (by simp [St.logCall])
    · rw [dif_neg h1]
      by_cases h2 : url ∈ (st.logCall url d).visited
      · rw [if_pos h2]
        exact PipelineShape.same (by simp [St.logCall]) (by simp [St.logCall])
      · rw [if_neg h2]
        rcases h3 : pyUrlparse env.lib url with e | p
        · dsimp only
          exact PipelineShape.same (by simp [St.logCall]) (by simp [St.logCall])
        · dsimp only
          by_cases h4 : ¬ (p.scheme ≠ "" ∧ p.netloc ≠ "")
          · rw [if_pos h4]
            exact PipelineShape.same (by simp [St.logCall]) (by simp [St.logCall])
          · rw [if_neg h4]
            rcases h5 : env.fetch url with _ | _ | ⟨parse_ok, links⟩
            · exact PipelineShape.same rfl rfl
            · exact PipelineShape.same rfl rfl
            · dsimp only
              rcases h6 : env.store_page url with _ | _ | page_id
              · dsimp only
                exact PipelineShape.same (by simp [St.logCall, St.logFetch])
                  (by simp [St.logCall, St.logFetch])
              · dsimp only
                exact PipelineShape.same (by simp [St.logCall, St.logFetch])
                  (by simp [St.logCall, St.logFetch])
              · dsimp only
                by_cases h7 : ¬ parse_ok = true
                · rw [if_pos h7]
                  exact PipelineShape.same rfl rfl
                · rw [if_neg h7]
                  set raw := (if cfg.test_mode = true then
                    _limit_links_for_test_mode cfg.max_links links else links) with hraw
                  rcases hnl : _filter_new_links env raw with e | new
                  · dsimp only
                    exact PipelineShape.same rfl rfl
                  · dsimp only
                    set lwc := _format_links_for_analysis (List.take cfg.max_links new) with hlwc
                    set analyzed := analyze_page_content env.respond hk mk lwc cfg.test_mode
                      with hana
                    set fmtd := _format_links_for_db analyzed with hfmt
                    by_cases h8 : new = []
                    · rw [if_pos h8]
                      exact PipelineShape.same rfl rfl
                    · rw [if_neg h8]
                      have hone : ∀ L ∈ [lwc], ∃ s,
                          L = _format_links_for_analysis (List.take cfg.max_links s) := by
                        intro L hL
                        rw [List.mem_singleton] at hL
                        subst hL
                        exact ⟨new, rfl⟩
                      by_cases h9 : analyzed = []
                      · rw [if_pos h9]
                        exact ⟨[lwc], [], by simp [St.logCall, St.logFetch, St.markVisited,
                          St.logAnalyze], by simp [St.logCall, St.logFetch, St.markVisited,
                          St.logAnalyze], hone, by simp⟩
                      · rw [if_neg h9]
                        by_cases h10 : ¬ env.store_links_ok page_id fmtd = true
                        · rw [if_pos h10]
                          exact ⟨[lwc], [], by simp [St.logCall, St.logFetch, St.markVisited,
                            St.logAnalyze], by simp [St.logCall, St.logFetch, St.markVisited,
                            St.logAnalyze], hone, by simp⟩
                        · rw [if_neg h10]
                          have hstep : PipelineShape env cfg hk mk st
                              (((((st.logCall url d).logFetch url).markVisited url
                                page_id).logAnalyze lwc).logStoredLinks page_id fmtd) := by
                            refine ⟨[lwc], [(page_id, fmtd)], ?_, ?_, hone, ?_⟩
                            · simp [St.logCall, St.logFetch, St.markVisited, St.logAnalyze,
                                St.logStoredLinks]
                            · simp [St.logCall, St.logFetch, St.markVisited, St.logAnalyze,
                                St.logStoredLinks]
                            · intro e he
                              rw [List.mem_singleton] at he
                              subst he
                              exact ⟨new, by rw [hfmt, hana, hlwc]⟩
                          by_cases h11 : d < cfg.max_depth
                          · rw [dif_pos h11]
                            rcases hcc : _crawl_child_links env cfg hk mk
                                (((((st.logCall url d).logFetch url).markVisited url
                                  page_id).logAnalyze lwc).logStoredLinks page_id fmtd)
                                analyzed (d + 1) with ⟨cres, st5⟩
                            have hch := hchild analyzed (((((st.logCall url d).logFetch
                              url).markVisited url page_id).logAnalyze lwc).logStoredLinks
                              page_id fmtd) h11
                            rw [hcc] at hch
                            cases cres with
                            | error e =>
                                dsimp only
                                exact PipelineShape.trans hstep hch
                            | ok v =>
                                dsimp only
                                exact PipelineShape.trans hstep hch
                          · rw [dif_neg h11]
                            exact hstep



lemma backoffFrom_stop {ε α : Type} {o : Nat → Except ε α} {b : ℚ} {m a : Nat}
    (h : ¬ a < m) : backoffFrom o b m a = (.ok none, []) := by
  rw [backoffFrom.eq_def, dif_neg h]

lemma backoffFrom_ok {ε α : Type} {o : Nat → Except ε α} {b : ℚ} {m a : Nat} {v : α}
    (h : a < m) (hv : o a = .ok v) : backoffFrom o b m a = (.ok (some v), []) := by
  rw [backoffFrom.eq_def, dif_pos h, hv]

lemma backoffFrom_err_last {ε α : Type} {o : Nat → Except ε α} {b : ℚ} {m a : Nat} {e : ε}
    (h : a < m) (he : o a = .error e) (hl : a = m - 1) :
    backoffFrom o b m a = (.error e, []) := by
  rw [backoffFrom.eq_def, dif_pos h, he]
  dsimp only
  rw [if_pos hl]

lemma backoffFrom_err_cont {ε α : Type} {o : Nat → Except ε α} {b : ℚ} {m a : Nat} {e : ε}
    (h : a < m) (he : o a = .error e) (hl : ¬ a = m - 1) :
    backoffFrom o b m a =
      ((backoffFrom o b m (a + 1)).1, b * 2 ^ a :: (backoffFrom o b m (a + 1)).2) := by
  rw [backoffFrom.eq_def, dif_pos h, he]
  dsimp only
  rw [if_neg hl]

lemma backoffFrom_congr {ε α : Type} :
    ∀ (k : Nat) (o1 o2 : Nat → Except ε α) (b : ℚ) (m a : Nat), m - a ≤ k →
      (∀ j, a ≤ j → j < m → o1 j = o2 j) →
      backoffFrom o1 b m a = backoffFrom o2 b m a := by
  intro k
  induction k with
  | zero =>
      intro o1 o2 b m a hk _h
      have hnm : ¬ a < m := by omega
      rw [backoffFrom_stop hnm, backoffFrom_stop hnm]
  | succ k ih =>
      intro o1 o2 b m a hk h
      by_cases ham : a < m
      · have h12 : o1 a = o2 a := h a le_rfl ham
        cases ho : o2 a with
        | ok v => rw [backoffFrom_ok ham (h12.trans ho), backoffFrom_ok ham ho]
        | error e =>
            by_cases hlast : a = m - 1
            · rw [backoffFrom_err_last ham (h12.trans ho) hlast,
                backoffFrom_err_last ham ho hlast]
            · rw [backoffFrom_err_cont ham (h12.trans ho) hlast,
                backoffFrom_err_cont ham ho hlast,
                ih o1 o2 b m (a + 1) (by omega) (fun j hj1 hj2 => h j (by omega) hj2)]
      · rw [backoffFrom_stop ham, backoffFrom_stop ham]

lemma _analyze_batch_length_le {respond : ClassifierOracle} {hk mk : List String}
    (hb : RespondBounded respond) (b : List RawLink) :
    (_analyze_batch respond hk mk b).length ≤ b.length := by
  unfold _analyze_batch
  cases h : respond hk mk b with
  | error e => simp
  | ok r =>
      calc (filter_links r (3 / 10)).length ≤ r.length := by
            unfold filter_links
            exact List.length_filter_le _ r
        _ ≤ b.length := hb hk mk b r h

lemma analyze_page_content_length_le {respond : ClassifierOracle} {hk mk : List String}
    (hb : RespondBounded respond) (links : List RawLink) (tm : Bool) :
    (analyze_page_content respond hk mk links tm).length ≤ links.length := by
  unfold analyze_page_content
  have hbs : 0 < BATCH_SIZE := by norm_num [BATCH_SIZE]
  have h1 : ((pyChunks BATCH_SIZE (_prepare_links links tm)).map
      (fun b => _analyze_batch respond hk mk b)).flatten.length
      ≤ (pyChunks BATCH_SIZE (_prepare_links links tm)).flatten.length := by
    rw [List.length_flatten, List.length_flatten, List.map_map]
    exact List.sum_le_sum (fun b _hb =>
      _analyze_batch_length_le hb b)
  calc ((pyChunks BATCH_SIZE (_prepare_links links tm)).map
        (fun b => _analyze_batch respond hk mk b)).flatten.length
      ≤ (pyChunks BATCH_SIZE (_prepare_links links tm)).flatten.length := h1
    _ = (_prepare_links links tm).length := by
        rw [pyChunks_flatten BATCH_SIZE hbs]
    _ ≤ links.length := by
        unfold _prepare_links
        cases tm with
        | true => simp
        | false => simp


section CrawlEval

variable {env : Env} {cfg : Cfg} {hk mk : List String} {st : St} {url : String}
  {d : Nat} {p : ParseResult}

lemma crawl_page_depth_gate (hd : cfg.max_depth < d) :
    crawl_page env cfg hk mk st url d = (.ok none, st.logCall url d) := by
  rw [crawl_page.eq_def]
  dsimp only
  rw [dif_pos hd]

lemma crawl_page_visited (hd : ¬ cfg.max_depth < d) (hv : url ∈ st.visited) :
    crawl_page env cfg hk mk st url d = (.ok none, st.logCall url d) := by
  rw [crawl_page.eq_def]
  dsimp only
  rw [dif_neg hd, if_pos (show url ∈ (st.logCall url d).visited by simpa [St.logCall] using hv)]

lemma crawl_page_parse_raised (hd : ¬ cfg.max_depth < d) (hv : url ∉ st.visited)
    (e : String) (hp : pyUrlparse env.lib url = .error e) :
    crawl_page env cfg hk mk st url d = (.error (), st.logCall url d) := by
  rw [crawl_page.eq_def]
  dsimp only
  rw [dif_neg hd, if_neg (show ¬ url ∈ (st.logCall url d).visited by simpa [St.logCall] using hv)]
  rw [hp]

lemma crawl_page_invalid (hd : ¬ cfg.max_depth < d) (hv : url ∉ st.visited)
    (hp : pyUrlparse env.lib url = .ok p) (hbad : ¬ (p.scheme ≠ "" ∧ p.netloc ≠ "")) :
    crawl_page env cfg hk mk st url d = (.ok none, st.logCall url d) := by
  rw [crawl_page.eq_def]
  dsimp only
  rw [dif_neg hd, if_neg (show ¬ url ∈ (st.logCall url d).visited by simpa [St.logCall] using hv)]
  rw [hp]
  dsimp only
  rw [if_pos hbad]

lemma crawl_page_fetch_raised (hd : ¬ cfg.max_depth < d) (hv : url ∉ st.visited)
    (hp : pyUrlparse env.lib url = .ok p) (hs : p.scheme ≠ "") (hn : p.netloc ≠ "")
    (hf : env.fetch url = .raised) :
    crawl_page env cfg hk mk st url d = (.ok none, (st.logCall url d).logFetch url) := by
  rw [crawl_page.eq_def]
  dsimp only
  rw [dif_neg hd, if_neg (show ¬ url ∈ (st.logCall url d).visited by simpa [St.logCall] using hv)]
  rw [hp]
  dsimp only
  rw [if_neg (not_not_intro ⟨hs, hn⟩), hf]

lemma crawl_page_non_html (hd : ¬ cfg.max_depth < d) (hv : url ∉ st.visited)
    (hp : pyUrlparse env.lib url = .ok p) (hs : p.scheme ≠ "") (hn : p.netloc ≠ "")
    (hf : env.fetch url = .nonHtml) :
    crawl_page env cfg hk mk st url d = (.ok none, (st.logCall url d).logFetch url) := by
  rw [crawl_page.eq_def]
  dsimp only
  rw [dif_neg hd, if_neg (show ¬ url ∈ (st.logCall url d).visited by simpa [St.logCall] using hv)]
  rw [hp]
  dsimp only
  rw [if_neg (not_not_intro ⟨hs, hn⟩), hf]

lemma crawl_page_store_raised (hd : ¬ cfg.max_depth < d) (hv : url ∉ st.visited)
    (hp : pyUrlparse env.lib url = .ok p) (hs : p.scheme ≠ "") (hn : p.netloc ≠ "")
    (po : Bool) (ls : List RawLink) (hf : env.fetch url = .page po ls)
    (hsp : env.store_page url = .raised) :
    crawl_page env cfg hk mk st url d = (.error (), (st.logCall url d).logFetch url) := by
  rw [crawl_page.eq_def]
  dsimp only
  rw [dif_neg hd, if_neg (show ¬ url ∈ (st.logCall url d).visited by simpa [St.logCall] using hv)]
  rw [hp]
  dsimp only
  rw [if_neg (not_not_intro ⟨hs, hn⟩), hf]
  dsimp only
  rw [hsp]

lemma crawl_page_store_none (hd : ¬ cfg.max_depth < d) (hv : url ∉ st.visited)
    (hp : pyUrlparse env.lib url = .ok p) (hs : p.scheme ≠ "") (hn : p.netloc ≠ "")
    (po : Bool) (ls : List RawLink) (hf : env.fetch url = .page po ls)
    (hsp : env.store_page url = .noId) :
    crawl_page env cfg hk mk st url d = (.ok none, (st.logCall url d).logFetch url) := by
  rw [crawl_page.eq_def]
  dsimp only
  rw [dif_neg hd, if_neg (show ¬ url ∈ (st.logCall url d).visited by simpa [St.logCall] using hv)]
  rw [hp]
  dsimp only
  rw [if_neg (not_not_intro ⟨hs, hn⟩), hf]
  dsimp only
  rw [hsp]

lemma crawl_page_analyze_empty (hd : ¬ cfg.max_depth < d) (hv : url ∉ st.visited)
    (hp : pyUrlparse env.lib url = .ok p) (hs : p.scheme ≠ "") (hn : p.netloc ≠ "")
    (ls : List RawLink) (hf : env.fetch url = .page true ls)
    (pid : Nat) (hsp : env.store_page url = .pageId pid)
    (new : List RawLink) (hq : _filter_new_links env (if cfg.test_mode = true then
      _limit_links_for_test_mode cfg.max_links ls else ls) = .ok new)
    (hnew : new ≠ [])
    (hana : analyze_page_content env.respond hk mk
      (_format_links_for_analysis (List.take cfg.max_links new)) cfg.test_mode = []) :
    crawl_page env cfg hk mk st url d =
      (.ok none, (((st.logCall url d).logFetch url).markVisited url pid).logAnalyze
        (_format_links_for_analysis (List.take cfg.max_links new))) := by
  rw [crawl_page.eq_def]
  dsimp only
  rw [dif_neg hd, if_neg (show ¬ url ∈ (st.logCall url d).visited by simpa [St.logCall] using hv)]
  rw [hp]
  dsimp only
  rw [if_neg (not_not_intro ⟨hs, hn⟩), hf]
  dsimp only
  rw [hsp]
  dsimp only
  rw [if_neg (by simp), hq]
  dsimp only
  rw [if_neg hnew, if_pos hana]

lemma crawl_page_store_links_fail (hd : ¬ cfg.max_depth < d) (hv : url ∉ st.visited)
    (hp : pyUrlparse env.lib url = .ok p) (hs : p.scheme ≠ "") (hn : p.netloc ≠ "")
    (ls : List RawLink) (hf : env.fetch url = .page true ls)
    (pid : Nat) (hsp : env.store_page url = .pageId pid)
    (new : List RawLink) (hq : _filter_new_links env (if cfg.test_mode = true then
      _limit_links_for_test_mode cfg.max_links ls else ls) = .ok new)
    (hnew : new ≠ [])
    (hana : analyze_page_content env.respond hk mk
      (_format_links_for_analysis (List.take cfg.max_links new)) cfg.test_mode ≠ [])
    (hsl : ¬ env.store_links_ok pid (_format_links_for_db
      (analyze_page_content env.respond hk mk
        (_format_links_for_analysis (List.take cfg.max_links new))
        cfg.test_mode)) = true) :
    crawl_page env cfg hk mk st url d =
      (.ok none, (((st.logCall url d).logFetch url).markVisited url pid).logAnalyze
        (_format_links_for_analysis (List.take cfg.max_links new))) := by
  rw [crawl_page.eq_def]
  dsimp only
  rw [dif_neg hd, if_neg (show ¬ url ∈ (st.logCall url d).visited by simpa [St.logCall] using hv)]
  rw [hp]
  dsimp only
  rw [if_neg (not_not_intro ⟨hs, hn⟩), hf]
  dsimp only
  rw [hsp]
  dsimp only
  rw [if_neg (by simp), hq]
  dsimp only
  rw [if_neg hnew, if_neg hana, if_pos hsl]

lemma crawl_page_dedup_raised (hd : ¬ cfg.max_depth < d) (hv : url ∉ st.visited)
    (hp : pyUrlparse env.lib url = .ok p) (hs : p.scheme ≠ "") (hn : p.netloc ≠ "")
    (ls : List RawLink) (hf : env.fetch url = .page true ls)
    (pid : Nat) (hsp : env.store_page url = .pageId pid)
    (e : Unit) (hq : _filter_new_links env (if cfg.test_mode = true then
      _limit_links_for_test_mode cfg.max_links ls else ls) = .error e) :
    crawl_page env cfg hk mk st url d =
      (.error (), ((st.logCall url d).logFetch url).markVisited url pid) := by
  rw [crawl_page.eq_def]
  dsimp only
  rw [dif_neg hd, if_neg (show ¬ url ∈ (st.logCall url d).visited by simpa [St.logCall] using hv)]
  rw [hp]
  dsimp only
  rw [if_neg (not_not_intro ⟨hs, hn⟩), hf]
  dsimp only
  rw [hsp]
  dsimp only
  rw [if_neg (by simp), hq]

end CrawlEval

/- ------------------------------------------------------------------ -/
/- Claim theorems. -/

set_option maxRecDepth 20000 in
/-- Claim C1, counterexample: on a page whose only candidate link has
extraction-time context ORIGINAL, a classifier that returns the same link
with context ALTERED makes crawl_page persist context ALTERED — the
persisted context equals the classifier string, not the extraction-time
context at the same batch position, refuting the claim at this input. -/
theorem C1_counterexample :
    ((crawl_page envCtx cfgD0 [] [] St.empty "http://www.x.com/start" 0).2.stored_links.map
      (fun e => e.2.map (fun r => r.context))) = [["ALTERED"]]
    ∧ ((crawl_page envCtx cfgD0 [] [] St.empty "http://www.x.com/start" 0).2.analyze_calls.map
      (fun b => b.map (fun l => l.context))) = [["ORIGINAL"]]
    ∧ ("ALTERED" : String) ≠ "ORIGINAL" := by
  refine ⟨?_, ?_, by decide⟩
  · simp +decide [crawl_page, _crawl_child_links.eq_1, _crawl_child_links.eq_2,
      analyze_page_content, pyChunks,
      _analyze_batch, filter_links, _prepare_links, _filter_new_links,
      _format_links_for_analysis, _format_links_for_db, _clean_keywords,
      _limit_links_for_test_mode, pyUrlparse, pyUrlsplit, schemeSplit,
      lstripControl, removeUnsafeBytes, isNetlocDelim, isAsciiAlphaChar,
      scheme_chars, bracketedHostOf, pySplitparams, uses_params, pyLower,
      St.empty, St.logCall, St.logFetch, St.markVisited, St.logAnalyze,
      St.logStoredLinks, pyLibTriv, TEST_MAX_LINKS_PER_PAGE, BATCH_SIZE,
      bind, Except.bind, pure, Except.pure, List.asString,
      envCtx, cfgD0, cfgDepth2, cfgPages1, envNoLinks, stVisitedA, envChild,
      envStoreRaise, envEcho, envFetchRaise, _set_mode_configuration,
      MAX_DEPTH, MAX_TOTAL_PAGES, MAX_LINKS_PER_PAGE]
    try norm_num [List.filter]
  · simp +decide [crawl_page, _crawl_child_links.eq_1, _crawl_child_links.eq_2,
      analyze_page_content, pyChunks,
      _analyze_batch, filter_links, _prepare_links, _filter_new_links,
      _format_links_for_analysis, _format_links_for_db, _clean_keywords,
      _limit_links_for_test_mode, pyUrlparse, pyUrlsplit, schemeSplit,
      lstripControl, removeUnsafeBytes, isNetlocDelim, isAsciiAlphaChar,
      scheme_chars, bracketedHostOf, pySplitparams, uses_params, pyLower,
      St.empty, St.logCall, St.logFetch, St.markVisited, St.logAnalyze,
      St.logStoredLinks, pyLibTriv, TEST_MAX_LINKS_PER_PAGE, BATCH_SIZE,
      bind, Except.bind, pure, Except.pure, List.asString,
      envCtx, cfgD0, cfgDepth2, cfgPages1, envNoLinks, stVisitedA, envChild,
      envStoreRaise, envEcho, envFetchRaise, _set_mode_configuration,
      MAX_DEPTH, MAX_TOTAL_PAGES, MAX_LINKS_PER_PAGE]
    try norm_num [List.filter]

set_option maxRecDepth 20000 in
/-- Claim C2, failing evaluation: with max_pages = 1 and one page already
visited this run, crawl_page on a fresh URL still fetches the network,
still registers the page, and the visited count reaches 2 > max_pages:
no page-budget gate runs (the helper that implements it is never called). -/
theorem C2_failing_eval :
    cfgPages1.max_pages = 1
    ∧ cfgPages1.max_pages ≤ stVisitedA.visited.length
    ∧ (crawl_page envNoLinks cfgPages1 [] [] stVisitedA "https://www.b.com/" 0).2.fetched
        = ["https://www.b.com/"]
    ∧ (crawl_page envNoLinks cfgPages1 [] [] stVisitedA "https://www.b.com/" 0).2.stored_pages
        = [("https://www.b.com/", 1)]
    ∧ (crawl_page envNoLinks cfgPages1 [] [] stVisitedA "https://www.b.com/" 0).2.visited.length
        = 2 := by
  refine ⟨by decide, by decide, ?_, ?_, ?_⟩
  · simp +decide [crawl_page, _crawl_child_links.eq_1, _crawl_child_links.eq_2,
      analyze_page_content, pyChunks,
      _analyze_batch, filter_links, _prepare_links, _filter_new_links,
      _format_links_for_analysis, _format_links_for_db, _clean_keywords,
      _limit_links_for_test_mode, pyUrlparse, pyUrlsplit, schemeSplit,
      lstripControl, removeUnsafeBytes, isNetlocDelim, isAsciiAlphaChar,
      scheme_chars, bracketedHostOf, pySplitparams, uses_params, pyLower,
      St.empty, St.logCall, St.logFetch, St.markVisited, St.logAnalyze,
      St.logStoredLinks, pyLibTriv, TEST_MAX_LINKS_PER_PAGE, BATCH_SIZE,
      bind, Except.bind, pure, Except.pure, List.asString,
      envCtx, cfgD0, cfgDepth2, cfgPages1, envNoLinks, stVisitedA, envChild,
      envStoreRaise, envEcho, envFetchRaise, _set_mode_configuration,
      MAX_DEPTH, MAX_TOTAL_PAGES, MAX_LINKS_PER_PAGE]
    try norm_num [List.filter]
  · simp +decide [crawl_page, _crawl_child_links.eq_1, _crawl_child_links.eq_2,
      analyze_page_content, pyChunks,
      _analyze_batch, filter_links, _prepare_links, _filter_new_links,
      _format_links_for_analysis, _format_links_for_db, _clean_keywords,
      _limit_links_for_test_mode, pyUrlparse, pyUrlsplit, schemeSplit,
      lstripControl, removeUnsafeBytes, isNetlocDelim, isAsciiAlphaChar,
      scheme_chars, bracketedHostOf, pySplitparams, uses_params, pyLower,
      St.empty, St.logCall, St.logFetch, St.markVisited, St.logAnalyze,
      St.logStoredLinks, pyLibTriv, TEST_MAX_LINKS_PER_PAGE, BATCH_SIZE,
      bind, Except.bind, pure, Except.pure, List.asString,
      envCtx, cfgD0, cfgDepth2, cfgPages1, envNoLinks, stVisitedA, envChild,
      envStoreRaise, envEcho, envFetchRaise, _set_mode_configuration,
      MAX_DEPTH, MAX_TOTAL_PAGES, MAX_LINKS_PER_PAGE]
    try norm_num [List.filter]
  · simp +decide [crawl_page, _crawl_child_links.eq_1, _crawl_child_links.eq_2,
      analyze_page_content, pyChunks,
      _analyze_batch, filter_links, _prepare_links, _filter_new_links,
      _format_links_for_analysis, _format_links_for_db, _clean_keywords,
      _limit_links_for_test_mode, pyUrlparse, pyUrlsplit, schemeSplit,
      lstripControl, removeUnsafeBytes, isNetlocDelim, isAsciiAlphaChar,
      scheme_chars, bracketedHostOf, pySplitparams, uses_params, pyLower,
      St.empty, St.logCall, St.logFetch, St.markVisited, St.logAnalyze,
      St.logStoredLinks, pyLibTriv, TEST_MAX_LINKS_PER_PAGE, BATCH_SIZE,
      bind, Except.bind, pure, Except.pure, List.asString,
      envCtx, cfgD0, cfgDepth2, cfgPages1, envNoLinks, stVisitedA, envChild,
      envStoreRaise, envEcho, envFetchRaise, _set_mode_configuration,
      MAX_DEPTH, MAX_TOTAL_PAGES, MAX_LINKS_PER_PAGE]
    try norm_num [List.filter]

set_option maxRecDepth 20000 in
/-- Claim C3, failing evaluation: the raw spellings of one canonical URL
are distinct strings that normalize_url maps to the same canonical form,
yet two consecutive crawl_page calls fetch the network once for each
spelling — crawl_page never normalizes before its frontier lookup. -/
theorem C3_failing_eval :
    normalize_url pyLibTriv "http://Example.com/" = some "http://www.example.com/"
    ∧ normalize_url pyLibTriv "http://example.com/" = some "http://www.example.com/"
    ∧ "http://Example.com/" ≠ "http://example.com/"
    ∧ (crawl_page envNoLinks cfgDepth2 [] []
        (crawl_page envNoLinks cfgDepth2 [] [] St.empty "http://Example.com/" 0).2
        "http://example.com/" 0).2.fetched
        = ["http://Example.com/", "http://example.com/"] := by
  refine ⟨by decide, by decide, by decide, ?_⟩
  · simp +decide [crawl_page, _crawl_child_links.eq_1, _crawl_child_links.eq_2,
      analyze_page_content, pyChunks,
      _analyze_batch, filter_links, _prepare_links, _filter_new_links,
      _format_links_for_analysis, _format_links_for_db, _clean_keywords,
      _limit_links_for_test_mode, pyUrlparse, pyUrlsplit, schemeSplit,
      lstripControl, removeUnsafeBytes, isNetlocDelim, isAsciiAlphaChar,
      scheme_chars, bracketedHostOf, pySplitparams, uses_params, pyLower,
      St.empty, St.logCall, St.logFetch, St.markVisited, St.logAnalyze,
      St.logStoredLinks, pyLibTriv, TEST_MAX_LINKS_PER_PAGE, BATCH_SIZE,
      bind, Except.bind, pure, Except.pure, List.asString,
      envCtx, cfgD0, cfgDepth2, cfgPages1, envNoLinks, stVisitedA, envChild,
      envStoreRaise, envEcho, envFetchRaise, _set_mode_configuration,
      MAX_DEPTH, MAX_TOTAL_PAGES, MAX_LINKS_PER_PAGE]
    try norm_num [List.filter]

set_option maxRecDepth 20000 in
/-- Claim C4, failing evaluation: a crawl_page run at depth 0 (with
0 < max_depth) that persists one link invokes the recursive child
crawl_page at depth 2, not depth 0 + 1: crawl_page passes
current_depth + 1 to _crawl_child_links, which adds 1 again. -/
theorem C4_failing_eval :
    (crawl_page envChild cfgDepth2 [] [] St.empty "http://www.x.com/start" 0).2.calls
      = [("http://www.x.com/start", 0), ("http://www.x.com/a", 2)]
    ∧ 0 < cfgDepth2.max_depth
    ∧ (2 : Nat) ≠ 0 + 1 := by
  refine ⟨?_, by decide, by decide⟩
  · rw [crawl_page.eq_def]
    simp +decide [crawl_page, _crawl_child_links.eq_1, _crawl_child_links.eq_2,
      analyze_page_content, pyChunks,
      _analyze_batch, filter_links, _prepare_links, _filter_new_links,
      _format_links_for_analysis, _format_links_for_db, _clean_keywords,
      _limit_links_for_test_mode, pyUrlparse, pyUrlsplit, schemeSplit,
      lstripControl, removeUnsafeBytes, isNetlocDelim, isAsciiAlphaChar,
      scheme_chars, bracketedHostOf, pySplitparams, uses_params, pyLower,
      St.empty, St.logCall, St.logFetch, St.markVisited, St.logAnalyze,
      St.logStoredLinks, pyLibTriv, TEST_MAX_LINKS_PER_PAGE, BATCH_SIZE,
      bind, Except.bind, pure, Except.pure, List.asString,
      envCtx, cfgD0, cfgDepth2, cfgPages1, envNoLinks, stVisitedA, envChild,
      envStoreRaise, envEcho, envFetchRaise, _set_mode_configuration,
      MAX_DEPTH, MAX_TOTAL_PAGES, MAX_LINKS_PER_PAGE]
    try norm_num [List.filter]
    rw [_crawl_child_links.eq_2]
    simp +decide [crawl_page, _crawl_child_links.eq_1, _crawl_child_links.eq_2,
      analyze_page_content, pyChunks,
      _analyze_batch, filter_links, _prepare_links, _filter_new_links,
      _format_links_for_analysis, _format_links_for_db, _clean_keywords,
      _limit_links_for_test_mode, pyUrlparse, pyUrlsplit, schemeSplit,
      lstripControl, removeUnsafeBytes, isNetlocDelim, isAsciiAlphaChar,
      scheme_chars, bracketedHostOf, pySplitparams, uses_params, pyLower,
      St.empty, St.logCall, St.logFetch, St.markVisited, St.logAnalyze,
      St.logStoredLinks, pyLibTriv, TEST_MAX_LINKS_PER_PAGE, BATCH_SIZE,
      bind, Except.bind, pure, Except.pure, List.asString,
      envCtx, cfgD0, cfgDepth2, cfgPages1, envNoLinks, stVisitedA, envChild,
      envStoreRaise, envEcho, envFetchRaise, _set_mode_configuration,
      MAX_DEPTH, MAX_TOTAL_PAGES, MAX_LINKS_PER_PAGE]
    try norm_num [List.filter]

set_option maxRecDepth 20000 in
/-- Claim C6, counterexample: two ordinary operational failures cross the
crawl boundary as exceptions instead of being downgraded to a null
result: a page registration (db.store_page) that raises, and a
persisted-dedup store query (db.get_existing_urls — a method the shipped
Database does not define, so with the shipped store the query raises
whenever reached) that raises; neither call is wrapped in try/except. -/
theorem C6_counterexample :
    (crawl_page envStoreRaise cfgDepth2 [] [] St.empty "https://www.b.com/" 0).1
      = .error ()
    ∧ (crawl_page envDedupRaise cfgDepth2 [] [] St.empty "https://www.b.com/" 0).1
      = .error () := by
  constructor <;>
  · simp +decide [crawl_page, _crawl_child_links.eq_1, _crawl_child_links.eq_2,
      analyze_page_content, pyChunks,
      _analyze_batch, filter_links, _prepare_links, _filter_new_links,
      _format_links_for_analysis, _format_links_for_db, _clean_keywords,
      _limit_links_for_test_mode, pyUrlparse, pyUrlsplit, schemeSplit,
      lstripControl, removeUnsafeBytes, isNetlocDelim, isAsciiAlphaChar,
      scheme_chars, bracketedHostOf, pySplitparams, uses_params, pyLower,
      St.empty, St.logCall, St.logFetch, St.markVisited, St.logAnalyze,
      St.logStoredLinks, pyLibTriv, TEST_MAX_LINKS_PER_PAGE, BATCH_SIZE,
      bind, Except.bind, pure, Except.pure, List.asString,
      envCtx, cfgD0, cfgDepth2, cfgPages1, envNoLinks, stVisitedA, envChild,
      envStoreRaise, envEcho, envFetchRaise, envDedupRaise, _set_mode_configuration,
      MAX_DEPTH, MAX_TOTAL_PAGES, MAX_LINKS_PER_PAGE]
    try norm_num [List.filter]



/-- Claim C5, counterexample: the claim predicts the fragment is dropped
from the output, so normalize("http://example.com/page#section") would be
"http://www.example.com/page"; the code keeps the fragment and returns
"http://www.example.com/page#section". -/
theorem C5_counterexample :
    normalize_url pyLibTriv "http://example.com/page#section"
      = some "http://www.example.com/page#section"
    ∧ "http://www.example.com/page#section" ≠ "http://www.example.com/page" := by
  constructor
  · decide
  · decide

/-- Claim C5, amended: normalize_url fails (None) exactly when the parse
raises or the parsed scheme or host is empty; on success it returns the
urlunparse reassembly of the lower-cased scheme, the www-prefixed
lower-cased host, path, params and query — with the FRAGMENT PRESERVED in
the output (appended after a hash), not dropped. -/
theorem C5_amended_theorem : ∀ (lib : PyUrlLib) (u : String),
    ((normalize_url lib u = none) ↔
      ∀ p, pyUrlparse lib u = .ok p → (p.scheme = "" ∨ p.netloc = ""))
    ∧ (∀ p, pyUrlparse lib u = .ok p → p.scheme ≠ "" → p.netloc ≠ "" →
        normalize_url lib u = some (pyUrlunparse (pyLower p.scheme)
          (if List.isPrefixOf "www.".toList (pyLower p.netloc).toList then pyLower p.netloc
           else "www." ++ pyLower p.netloc) p.path p.params p.query p.fragment)
        ∧ (p.fragment ≠ "" →
            ∃ pre, normalize_url lib u = some (pre ++ "#" ++ p.fragment))) := by
  intro lib u
  constructor
  · cases hp : pyUrlparse lib u with
    | error e =>
        simp only [normalize_url, hp]
        constructor
        · intro _ p hp2
          cases hp2
        · intro _
          trivial
    | ok p =>
        simp only [normalize_url, hp]
        by_cases h : p.scheme = "" ∨ p.netloc = ""
        · rw [if_pos h]
          constructor
          · intro _ p2 hp2
            rw [Except.ok.injEq] at hp2
            exact hp2 ▸ h
          · intro _
            rfl
        · rw [if_neg h]
          constructor
          · intro hfalse
            exact absurd hfalse (by simp)
          · intro hall
            exact absurd (hall p rfl) h
  · intro p hp hs hn
    have hres : normalize_url lib u = some (pyUrlunparse (pyLower p.scheme)
        (if List.isPrefixOf "www.".toList (pyLower p.netloc).toList then pyLower p.netloc
         else "www." ++ pyLower p.netloc) p.path p.params p.query p.fragment) := by
      simp only [normalize_url, hp]
      rw [if_neg (by simp [hs, hn])]
    refine ⟨hres, ?_⟩
    intro hf
    rw [hres]
    unfold pyUrlunparse pyUrlunsplit
    dsimp only
    rw [if_pos hf]
    exact ⟨_, rfl⟩

/-- Claim C5, witness: the amended theorem applied to the URL
http://example.com/page#section whose parse result is
(http, example.com, /page, -, -, section). -/
theorem C5_witness :
    normalize_url pyLibTriv "http://example.com/page#section"
      = some (pyUrlunparse (pyLower "http")
          (if List.isPrefixOf "www.".toList (pyLower "example.com").toList
           then pyLower "example.com" else "www." ++ pyLower "example.com")
          "/page" "" "" "section")
    ∧ (("section" : String) ≠ "" →
        ∃ pre, normalize_url pyLibTriv "http://example.com/page#section"
          = some (pre ++ "#" ++ "section")) :=
  (C5_amended_theorem pyLibTriv "http://example.com/page#section").2
    ⟨"http", "example.com", "/page", "", "", "section"⟩ (by decide) (by decide) (by decide)

/-- Claim C8, failing evaluation: a token bucket with 60 calls/minute
(interval 1s), burst 3 and an empty bucket admits 10 back-to-back wait()
calls at times 1,1,2,2,3,3,4,4,5,5 — ten admissions within 5 time units,
twice the sustained rate and above the claimed R·t + B = 8 bound, because
wait records last_check as the pre-sleep timestamp, so the slept duration
is re-credited as fresh tokens on the next call. -/
theorem C8_failing_eval :
    RateLimiter.backToBack (RateLimiter.mkInterval 60) 3 ⟨0, 0⟩ 0 10
      = [1, 1, 2, 2, 3, 3, 4, 4, 5, 5]
    ∧ (∀ t ∈ RateLimiter.backToBack (RateLimiter.mkInterval 60) 3 ⟨0, 0⟩ 0 10, t ≤ 5)
    ∧ (1 : ℚ) * 5 + 3 < 10 := by
  refine ⟨?_, ?_, by norm_num⟩
  · norm_num [RateLimiter.backToBack, RateLimiter.wait, RateLimiter.mkInterval]
  · norm_num [RateLimiter.backToBack, RateLimiter.wait, RateLimiter.mkInterval]

/-- Claim C9: batching partitions the candidate sequence into consecutive
BATCH_SIZE groups — every batch is nonempty and at most BATCH_SIZE long,
every batch except possibly the last is exactly BATCH_SIZE long, their
concatenation in batch order reproduces the input sequence exactly, and in
production mode the analyzer consumes precisely these batches of the
unmodified deduplicated sequence. -/
theorem C9_theorem : ∀ (l : List RawLink),
    (pyChunks BATCH_SIZE l).flatten = l
    ∧ (∀ b ∈ pyChunks BATCH_SIZE l, b ≠ [] ∧ b.length ≤ BATCH_SIZE)
    ∧ (∀ i, i + 1 < (pyChunks BATCH_SIZE l).length →
        ((pyChunks BATCH_SIZE l).getD i []).length = BATCH_SIZE)
    ∧ _prepare_links l false = l
    ∧ (∀ (respond : ClassifierOracle) (hk mk : List String) (tm : Bool),
        analyze_page_content respond hk mk l tm
          = ((pyChunks BATCH_SIZE (_prepare_links l tm)).map
              (fun b => _analyze_batch respond hk mk b)).flatten) := by
  intro l
  have hbs : 0 < BATCH_SIZE := by norm_num [BATCH_SIZE]
  refine ⟨pyChunks_flatten BATCH_SIZE hbs l, pyChunks_mem BATCH_SIZE hbs l,
    pyChunks_full BATCH_SIZE hbs l, rfl, fun respond hk mk tm => rfl⟩

/-- Claim C9, witness: the batching facts applied to a 21-element
candidate list, which splits into a full batch of 20 and a final batch of
one. -/
theorem C9_witness :
    (pyChunks BATCH_SIZE sample21).flatten = sample21
    ∧ (List.replicate 20 sampleLink ≠ []
        ∧ (List.replicate 20 sampleLink).length ≤ BATCH_SIZE)
    ∧ ((pyChunks BATCH_SIZE sample21).getD 0 []).length = BATCH_SIZE := by
  have hch : pyChunks BATCH_SIZE sample21
      = [List.replicate 20 sampleLink, [sampleLink]] := by
    rw [show sample21 = sampleLink :: List.replicate 20 sampleLink from rfl]
    rw [pyChunks_cons BATCH_SIZE (by norm_num [BATCH_SIZE])]
    rw [show List.drop BATCH_SIZE (sampleLink :: List.replicate 20 sampleLink)
        = [sampleLink] from by simp [BATCH_SIZE, List.replicate]]
    rw [pyChunks_cons BATCH_SIZE (by norm_num [BATCH_SIZE])]
    simp [BATCH_SIZE, pyChunks_nil, List.replicate]
  have h := C9_theorem sample21
  refine ⟨h.1, h.2.1 (List.replicate 20 sampleLink) ?_, ?_⟩
  · rw [hch]
    simp
  · have := h.2.2.1 0 (by rw [hch]; norm_num)
    exact this


/-- Claim C1, amended: every link batch persisted during a crawl run is
the db-formatting of the classifier pipeline output, so each stored
context equals the classifier-returned context field (defaulted to the
empty string), not the extraction-time context; per batch, a successful
classifier response is only threshold-filtered, never context-merged. -/
theorem C1_amended_theorem : ∀ (env : Env) (cfg : Cfg) (hk mk : List String)
    (url : String) (d : Nat),
    (∀ e ∈ ((crawl_page env cfg hk mk St.empty url d).2).stored_links,
      ∃ out : List AnalyzedLink,
        e.2 = _format_links_for_db out
        ∧ e.2.map (fun r => r.context) = out.map (fun a => a.context.getD ""))
    ∧ (∀ batch r, env.respond hk mk batch = .ok r →
        _analyze_batch env.respond hk mk batch = filter_links r (3 / 10)) := by
  intro env cfg hk mk url d
  constructor
  · intro e he
    obtain ⟨δa, δs, _ha, hs, _hpa, hps⟩ := crawl_page_shape (cfg.max_depth + 2 - d)
      env cfg hk mk St.empty url d le_rfl
    rw [hs] at he
    rw [show St.empty.stored_links = [] from rfl, List.nil_append] at he
    obtain ⟨s, hes⟩ := hps e he
    refine ⟨analyze_page_content env.respond hk mk
      (_format_links_for_analysis (List.take cfg.max_links s)) cfg.test_mode, hes, ?_⟩
    rw [hes]
    rw [_format_links_for_db, List.map_map]
    rfl
  · intro batch r h
    unfold _analyze_batch
    rw [h]

/-- Claim C1, witness: the amended per-batch fact applied to the
counterexample scenario: the classifier response that alters the context
is passed through the threshold filter untouched. -/
theorem C1_witness :
    _analyze_batch envCtx.respond [] [] [⟨"http://www.x.com/a", "t", "ORIGINAL"⟩]
      = filter_links [⟨"http://www.x.com/a", 1, some "expl", none, none, some "ALTERED"⟩]
          (3 / 10) :=
  (C1_amended_theorem envCtx cfgD0 [] [] "http://www.x.com/start" 0).2
    [⟨"http://www.x.com/a", "t", "ORIGINAL"⟩]
    [⟨"http://www.x.com/a", 1, some "expl", none, none, some "ALTERED"⟩] rfl

/-- Claim C6, amended: for a URL that passes the depth, frontier and
format gates: a fetch failure after retries, non-HTML content, and a page
registration that reports failure by returning no id are each downgraded
to a null result; when the persisted-dedup store query answers, an
all-batches-failed classification and a link-persistence failure are also
downgraded to a null result; but a page registration that raises a
storage exception, and a persisted-dedup store query that raises (the
call to db.get_existing_urls at crawler.py:224 is not wrapped in
try/except, and the shipped Database defines no such method, so with the
shipped store it raises whenever reached), each propagate out of
crawl_page as an exception. -/
theorem C6_amended_theorem : ∀ (env : Env) (cfg : Cfg) (hk mk : List String) (st : St)
    (url : String) (d : Nat) (p : ParseResult),
    ¬ cfg.max_depth < d → url ∉ st.visited →
    pyUrlparse env.lib url = .ok p → p.scheme ≠ "" → p.netloc ≠ "" →
    ((env.fetch url = .raised → (crawl_page env cfg hk mk st url d).1 = .ok none)
    ∧ (env.fetch url = .nonHtml → (crawl_page env cfg hk mk st url d).1 = .ok none)
    ∧ (∀ po ls, env.fetch url = .page po ls → env.store_page url = .noId →
        (crawl_page env cfg hk mk st url d).1 = .ok none)
    ∧ (∀ ls pid new, env.fetch url = .page true ls → env.store_page url = .pageId pid →
        _filter_new_links env (if cfg.test_mode = true then
          _limit_links_for_test_mode cfg.max_links ls else ls) = .ok new →
        new ≠ [] →
        analyze_page_content env.respond hk mk (_format_links_for_analysis
          (List.take cfg.max_links new)) cfg.test_mode = [] →
        (crawl_page env cfg hk mk st url d).1 = .ok none)
    ∧ (∀ ls pid new, env.fetch url = .page true ls → env.store_page url = .pageId pid →
        _filter_new_links env (if cfg.test_mode = true then
          _limit_links_for_test_mode cfg.max_links ls else ls) = .ok new →
        new ≠ [] →
        analyze_page_content env.respond hk mk (_format_links_for_analysis
          (List.take cfg.max_links new)) cfg.test_mode ≠ [] →
        ¬ env.store_links_ok pid (_format_links_for_db
          (analyze_page_content env.respond hk mk (_format_links_for_analysis
            (List.take cfg.max_links new)) cfg.test_mode)) = true →
        (crawl_page env cfg hk mk st url d).1 = .ok none)
    ∧ (∀ po ls, env.fetch url = .page po ls → env.store_page url = .raised →
        (crawl_page env cfg hk mk st url d).1 = .error ())
    ∧ (∀ ls pid e, env.fetch url = .page true ls → env.store_page url = .pageId pid →
        _filter_new_links env (if cfg.test_mode = true then
          _limit_links_for_test_mode cfg.max_links ls else ls) = .error e →
        (crawl_page env cfg hk mk st url d).1 = .error ())) := by
  intro env cfg hk mk st url d p hd hv hp hs hn
  refine ⟨?_, ?_, ?_, ?_, ?_, ?_, ?_⟩
  · intro hf
    rw [crawl_page_fetch_raised hd hv hp hs hn hf]
  · intro hf
    rw [crawl_page_non_html hd hv hp hs hn hf]
  · intro po ls hf hsp
    rw [crawl_page_store_none hd hv hp hs hn po ls hf hsp]
  · intro ls pid new hf hsp hq hnew hana
    rw [crawl_page_analyze_empty hd hv hp hs hn ls hf pid hsp new hq hnew hana]
  · intro ls pid new hf hsp hq hnew hana hsl
    rw [crawl_page_store_links_fail hd hv hp hs hn ls hf pid hsp new hq hnew hana hsl]
  · intro po ls hf hsp
    rw [crawl_page_store_raised hd hv hp hs hn po ls hf hsp]
  · intro ls pid e hf hsp hq
    rw [crawl_page_dedup_raised hd hv hp hs hn ls hf pid hsp e hq]

/-- Claim C6, witness: the amended theorem applied concretely — a fetch
that raises after retries yields a null result, a page registration that
raises propagates an exception, and a persisted-dedup store query that
raises propagates an exception. -/
theorem C6_witness :
    (crawl_page envFetchRaise cfgDepth2 [] [] St.empty "https://www.b.com/" 0).1 = .ok none
    ∧ (crawl_page envStoreRaise cfgDepth2 [] [] St.empty "https://www.b.com/" 0).1
        = .error ()
    ∧ (crawl_page envDedupRaise cfgDepth2 [] [] St.empty "https://www.b.com/" 0).1
        = .error () :=
  ⟨(C6_amended_theorem envFetchRaise cfgDepth2 [] [] St.empty "https://www.b.com/" 0
      ⟨"https", "www.b.com", "/", "", "", ""⟩ (by decide) (by simp [St.empty])
      (by decide) (by decide) (by decide)).1 rfl,
   (C6_amended_theorem envStoreRaise cfgDepth2 [] [] St.empty "https://www.b.com/" 0
      ⟨"https", "www.b.com", "/", "", "", ""⟩ (by decide) (by simp [St.empty])
      (by decide) (by decide) (by decide)).2.2.2.2.2.1 true
      [⟨"http://www.x.com/a", "t", "ORIGINAL"⟩] rfl rfl,
   (C6_amended_theorem envDedupRaise cfgDepth2 [] [] St.empty "https://www.b.com/" 0
      ⟨"https", "www.b.com", "/", "", "", ""⟩ (by decide) (by simp [St.empty])
      (by decide) (by decide) (by decide)).2.2.2.2.2.2
      [⟨"http://www.x.com/a", "t", "ORIGINAL"⟩] 1 () rfl rfl rfl⟩


/-- Claim C7: the fetch retry wrapper (max_retries 3, base_delay b)
attempts the operation at most three times — its outcome depends only on
the first three attempt results; a success on attempt k returns that
response after sleeping b·2^0, …, b·2^(k-1); three failures re-raise the
final error after sleeping b·2^0 and b·2^1; at the crawl level an
exhausted-retries fetch yields a null result for that URL and the seed
loop proceeds with the remaining URLs. -/
theorem C7_theorem : ∀ (α : Type) (o : Nat → Except Unit α) (b : ℚ),
    (∀ a, o 0 = .ok a → exponential_backoff o b 3 = (.ok (some a), []))
    ∧ (∀ a e0, o 0 = .error e0 → o 1 = .ok a →
        exponential_backoff o b 3 = (.ok (some a), [b * 2 ^ 0]))
    ∧ (∀ a e0 e1, o 0 = .error e0 → o 1 = .error e1 → o 2 = .ok a →
        exponential_backoff o b 3 = (.ok (some a), [b * 2 ^ 0, b * 2 ^ 1]))
    ∧ (∀ e0 e1 e2, o 0 = .error e0 → o 1 = .error e1 → o 2 = .error e2 →
        exponential_backoff o b 3 = (.error e2, [b * 2 ^ 0, b * 2 ^ 1]))
    ∧ (∀ o2 : Nat → Except Unit α, (∀ j, j < 3 → o j = o2 j) →
        exponential_backoff o b 3 = exponential_backoff o2 b 3)
    ∧ (∀ (env : Env) (cfg : Cfg) (hk mk : List String) (st : St) (u : String)
        (p : ParseResult) (rest : List String),
        u ∉ st.visited → pyUrlparse env.lib u = .ok p →
        p.scheme ≠ "" → p.netloc ≠ "" → env.fetch u = .raised →
        (crawl_page env cfg hk mk st u 0).1 = .ok none
        ∧ crawl_urls env cfg hk mk st (u :: rest)
            = crawl_urls env cfg hk mk ((crawl_page env cfg hk mk st u 0).2) rest) := by
  intro α o b
  refine ⟨?_, ?_, ?_, ?_, ?_, ?_⟩
  · intro a h
    unfold exponential_backoff
    rw [backoffFrom_ok (by norm_num) h]
  · intro a e0 h0 h1
    unfold exponential_backoff
    rw [backoffFrom_err_cont (by norm_num) h0 (by norm_num)]
    rw [backoffFrom_ok (by norm_num) h1]
  · intro a e0 e1 h0 h1 h2
    unfold exponential_backoff
    rw [backoffFrom_err_cont (by norm_num) h0 (by norm_num)]
    rw [backoffFrom_err_cont (by norm_num) h1 (by norm_num)]
    rw [backoffFrom_ok (by norm_num) h2]
  · intro e0 e1 e2 h0 h1 h2
    unfold exponential_backoff
    rw [backoffFrom_err_cont (by norm_num) h0 (by norm_num)]
    rw [backoffFrom_err_cont (by norm_num) h1 (by norm_num)]
    rw [backoffFrom_err_last (by norm_num) h2 (by norm_num)]
  · intro o2 h
    exact backoffFrom_congr 3 o o2 b 3 0 (by norm_num) (fun j _hj1 hj2 => h j hj2)
  · intro env cfg hk mk st u p rest hv hp hs hn hf
    have hd : ¬ cfg.max_depth < 0 := by omega
    have hcp := @crawl_page_fetch_raised env cfg hk mk st u 0 p hd hv hp hs hn hf
    constructor
    · rw [hcp]
    · rw [crawl_urls]
      rw [hcp]

/-- Claim C7, witness: the retry facts at base_delay 2 applied to four
concrete attempt oracles (success on attempts 1, 2, 3, and never), to an
oracle pair that agrees on the first three attempts, and to a crawl run
whose first seed URL always fails to fetch. -/
theorem C7_witness :
    exponential_backoff attemptsAllOk 2 3 = (.ok (some 5), [])
    ∧ exponential_backoff attemptsSecondOk 2 3 = (.ok (some 7), [2 * 2 ^ 0])
    ∧ exponential_backoff attemptsThirdOk 2 3 = (.ok (some 9), [2 * 2 ^ 0, 2 * 2 ^ 1])
    ∧ exponential_backoff attemptsAllFail 2 3 = (.error (), [2 * 2 ^ 0, 2 * 2 ^ 1])
    ∧ exponential_backoff attemptsAllFail 2 3
        = exponential_backoff (fun j => if j < 3 then .error () else .ok 0) 2 3
    ∧ ((crawl_page envFetchRaise cfgDepth2 [] [] St.empty "https://www.b.com/" 0).1
          = .ok none
        ∧ crawl_urls envFetchRaise cfgDepth2 [] [] St.empty
            ["https://www.b.com/", "https://www.c.com/"]
          = crawl_urls envFetchRaise cfgDepth2 [] []
              ((crawl_page envFetchRaise cfgDepth2 [] [] St.empty "https://www.b.com/" 0).2)
              ["https://www.c.com/"]) :=
  ⟨(C7_theorem Nat attemptsAllOk 2).1 5 rfl,
   (C7_theorem Nat attemptsSecondOk 2).2.1 7 () rfl rfl,
   (C7_theorem Nat attemptsThirdOk 2).2.2.1 9 () () rfl rfl rfl,
   (C7_theorem Nat attemptsAllFail 2).2.2.2.1 () () () rfl rfl rfl,
   (C7_theorem Nat attemptsAllFail 2).2.2.2.2.1 (fun j => if j < 3 then .error () else .ok 0)
     (by decide),
   (C7_theorem Nat attemptsAllOk 2).2.2.2.2.2 envFetchRaise cfgDepth2 [] [] St.empty
     "https://www.b.com/" ⟨"https", "www.b.com", "/", "", "", ""⟩ ["https://www.c.com/"]
     (by simp [St.empty]) (by decide) (by decide) (by decide) rfl⟩

/-- Claim C10: in every mode, every candidate list handed to the
classifier during a crawl run is a max_links prefix — its length never
exceeds max_links — and, under the classifier contract of at most one
output per input, every persisted link batch is bounded by max_links as
well; production mode runs with test_mode off and max_links =
MAX_LINKS_PER_PAGE = 300. -/
theorem C10_theorem : ∀ (env : Env) (cfg : Cfg) (hk mk : List String)
    (url : String) (d : Nat),
    (∀ L ∈ ((crawl_page env cfg hk mk St.empty url d).2).analyze_calls,
        L.length ≤ cfg.max_links)
    ∧ (RespondBounded env.respond →
        ∀ e ∈ ((crawl_page env cfg hk mk St.empty url d).2).stored_links,
          e.2.length ≤ cfg.max_links)
    ∧ (_set_mode_configuration false).test_mode = false
    ∧ (_set_mode_configuration false).max_links = MAX_LINKS_PER_PAGE
    ∧ (_set_mode_configuration true).max_links = TEST_MAX_LINKS_PER_PAGE
    ∧ MAX_LINKS_PER_PAGE = 300 := by
  intro env cfg hk mk url d
  obtain ⟨δa, δs, ha, hs, hpa, hps⟩ := crawl_page_shape (cfg.max_depth + 2 - d)
    env cfg hk mk St.empty url d le_rfl
  refine ⟨?_, ?_, rfl, rfl, rfl, rfl⟩
  · intro L hL
    rw [ha, show St.empty.analyze_calls = [] from rfl, List.nil_append] at hL
    obtain ⟨s, rfl⟩ := hpa L hL
    calc (_format_links_for_analysis (List.take cfg.max_links s)).length
        = (List.take cfg.max_links s).length := by simp [_format_links_for_analysis]
      _ ≤ cfg.max_links := List.length_take_le _ _
  · intro hb e he
    rw [hs, show St.empty.stored_links = [] from rfl, List.nil_append] at he
    obtain ⟨s, hes⟩ := hps e he
    rw [hes]
    calc (_format_links_for_db (analyze_page_content env.respond hk mk
          (_format_links_for_analysis (List.take cfg.max_links s)) cfg.test_mode)).length
        = (analyze_page_content env.respond hk mk
            (_format_links_for_analysis (List.take cfg.max_links s)) cfg.test_mode).length := by
          simp [_format_links_for_db]
      _ ≤ (_format_links_for_analysis (List.take cfg.max_links s)).length :=
          analyze_page_content_length_le hb _ _
      _ = (List.take cfg.max_links s).length := by simp [_format_links_for_analysis]
      _ ≤ cfg.max_links := List.length_take_le _ _

/-- Claim C10, witness: the bound applied to a production-mode run with
an echoing classifier: both the analyzer input and the persisted batch of
the crawled page stay within max_links. -/
theorem C10_witness :
    ([⟨"http://www.x.com/a", "t", "ORIGINAL"⟩] : List RawLink).length
      ≤ (_set_mode_configuration false).max_links
    ∧ (((1 : Nat), ([⟨"http://www.x.com/a", (1 : ℚ), "", [], [], "ORIGINAL"⟩]
        : List DbLink))).2.length
      ≤ (_set_mode_configuration false).max_links := by
  have h := C10_theorem envEcho (_set_mode_configuration false) [] []
    "http://www.x.com/start" 0
  have hb : RespondBounded envEcho.respond := by
    intro hk mk b r hr
    have h2 : envEcho.respond hk mk b = Except.ok (b.map (fun l =>
        (⟨l.url, 1, none, none, none, some l.context⟩ : AnalyzedLink))) := rfl
    rw [h2, Except.ok.injEq] at hr
    rw [← hr]
    simp
  have heval_a : (crawl_page envEcho (_set_mode_configuration false) [] [] St.empty
      "http://www.x.com/start" 0).2.analyze_calls
      = [[⟨"http://www.x.com/a", "t", "ORIGINAL"⟩], [⟨"http://www.x.com/a", "t", "ORIGINAL"⟩]] := by
    simp +decide [crawl_page, _crawl_child_links.eq_1, _crawl_child_links.eq_2,
      analyze_page_content, pyChunks,
      _analyze_batch, filter_links, _prepare_links, _filter_new_links,
      _format_links_for_analysis, _format_links_for_db, _clean_keywords,
      _limit_links_for_test_mode, pyUrlparse, pyUrlsplit, schemeSplit,
      lstripControl, removeUnsafeBytes, isNetlocDelim, isAsciiAlphaChar,
      scheme_chars, bracketedHostOf, pySplitparams, uses_params, pyLower,
      St.empty, St.logCall, St.logFetch, St.markVisited, St.logAnalyze,
      St.logStoredLinks, pyLibTriv, TEST_MAX_LINKS_PER_PAGE, BATCH_SIZE,
      bind, Except.bind, pure, Except.pure, List.asString,
      envCtx, cfgD0, cfgDepth2, cfgPages1, envNoLinks, stVisitedA, envChild,
      envStoreRaise, envEcho, envFetchRaise, _set_mode_configuration,
      MAX_DEPTH, MAX_TOTAL_PAGES, MAX_LINKS_PER_PAGE]
    try norm_num [List.filter]
    rw [_crawl_child_links.eq_2]
    simp +decide [crawl_page, _crawl_child_links.eq_1, _crawl_child_links.eq_2,
      analyze_page_content, pyChunks,
      _analyze_batch, filter_links, _prepare_links, _filter_new_links,
      _format_links_for_analysis, _format_links_for_db, _clean_keywords,
      _limit_links_for_test_mode, pyUrlparse, pyUrlsplit, schemeSplit,
      lstripControl, removeUnsafeBytes, isNetlocDelim, isAsciiAlphaChar,
      scheme_chars, bracketedHostOf, pySplitparams, uses_params, pyLower,
      St.empty, St.logCall, St.logFetch, St.markVisited, St.logAnalyze,
      St.logStoredLinks, pyLibTriv, TEST_MAX_LINKS_PER_PAGE, BATCH_SIZE,
      bind, Except.bind, pure, Except.pure, List.asString,
      envCtx, cfgD0, cfgDepth2, cfgPages1, envNoLinks, stVisitedA, envChild,
      envStoreRaise, envEcho, envFetchRaise, _set_mode_configuration,
      MAX_DEPTH, MAX_TOTAL_PAGES, MAX_LINKS_PER_PAGE]
    try norm_num [List.filter]
  have heval_s : (crawl_page envEcho (_set_mode_configuration false) [] [] St.empty
      "http://www.x.com/start" 0).2.stored_links
      = [((1 : Nat), [⟨"http://www.x.com/a", (1 : ℚ), "", [], [], "ORIGINAL"⟩]),
         ((1 : Nat), [⟨"http://www.x.com/a", (1 : ℚ), "", [], [], "ORIGINAL"⟩])] := by
    simp +decide [crawl_page, _crawl_child_links.eq_1, _crawl_child_links.eq_2,
      analyze_page_content, pyChunks,
      _analyze_batch, filter_links, _prepare_links, _filter_new_links,
      _format_links_for_analysis, _format_links_for_db, _clean_keywords,
      _limit_links_for_test_mode, pyUrlparse, pyUrlsplit, schemeSplit,
      lstripControl, removeUnsafeBytes, isNetlocDelim, isAsciiAlphaChar,
      scheme_chars, bracketedHostOf, pySplitparams, uses_params, pyLower,
      St.empty, St.logCall, St.logFetch, St.markVisited, St.logAnalyze,
      St.logStoredLinks, pyLibTriv, TEST_MAX_LINKS_PER_PAGE, BATCH_SIZE,
      bind, Except.bind, pure, Except.pure, List.asString,
      envCtx, cfgD0, cfgDepth2, cfgPages1, envNoLinks, stVisitedA, envChild,
      envStoreRaise, envEcho, envFetchRaise, _set_mode_configuration,
      MAX_DEPTH, MAX_TOTAL_PAGES, MAX_LINKS_PER_PAGE]
    try norm_num [List.filter]
    rw [_crawl_child_links.eq_2]
    simp +decide [crawl_page, _crawl_child_links.eq_1, _crawl_child_links.eq_2,
      analyze_page_content, pyChunks,
      _analyze_batch, filter_links, _prepare_links, _filter_new_links,
      _format_links_for_analysis, _format_links_for_db, _clean_keywords,
      _limit_links_for_test_mode, pyUrlparse, pyUrlsplit, schemeSplit,
      lstripControl, removeUnsafeBytes, isNetlocDelim, isAsciiAlphaChar,
      scheme_chars, bracketedHostOf, pySplitparams, uses_params, pyLower,
      St.empty, St.logCall, St.logFetch, St.markVisited, St.logAnalyze,
      St.logStoredLinks, pyLibTriv, TEST_MAX_LINKS_PER_PAGE, BATCH_SIZE,
      bind, Except.bind, pure, Except.pure, List.asString,
      envCtx, cfgD0, cfgDepth2, cfgPages1, envNoLinks, stVisitedA, envChild,
      envStoreRaise, envEcho, envFetchRaise, _set_mode_configuration,
      MAX_DEPTH, MAX_TOTAL_PAGES, MAX_LINKS_PER_PAGE]
    try norm_num [List.filter]
  constructor
  · refine h.1 [⟨"http://www.x.com/a", "t", "ORIGINAL"⟩] ?_
    rw [heval_a]
    simp
  · refine h.2.1 hb ((1 : Nat), [⟨"http://www.x.com/a", (1 : ℚ), "", [], [], "ORIGINAL"⟩]) ?_
    rw [heval_s]
    simp

end WebCrawler
